import Mathlib

/-!
# Envoy Gateway: EnvoyProxy defaults and the three-level EnvoyProxy merge

A shallow embedding of

* `api/v1alpha1/envoyproxy_defaults.go`  (the baseline default provider), and
* `internal/gatewayapi/envoyproxy_merge.go` (the precedence resolver),

followed by theorems about them.

Conventions of the embedding.

* A Go pointer `*T` is an `Option T`: `nil` is `none`.  Pointer identity is not
  modelled, two documents are the same when their values are equal.
* A Go result pair `(T, error)` is a pair whose second component is an
  `Option E`: `none` is the `nil` error.
* A Go call either returns or panics on a `nil` dereference: `Outcome`.
* A Go `map[K]V` is a lookup function `K → Option V` (a map has no order and no
  repeated key).
-/

namespace Gateway

/-! ## Data model -/

/-- Go `metav1.ObjectMeta` of the Kubernetes API library, restricted to the
identity fields ("identity metadata" in section 3 of the specification).  Both
are `omitempty` strings: the empty string is the unset state. -/
structure ObjectMeta where
  Name : String := ""
  Namespace : String := ""
deriving DecidableEq, Repr

/-- Go `corev1.SeccompProfileType`, a string type. -/
abbrev SeccompProfileType := String

/-- Go constant `corev1.SeccompProfileTypeRuntimeDefault`. -/
def SeccompProfileTypeRuntimeDefault : SeccompProfileType := "RuntimeDefault"

/-- Go `corev1.SeccompProfile` of the Kubernetes API library; `Type_` (Go
`Type`) is a required, non-pointer field. -/
structure SeccompProfile where
  Type_ : SeccompProfileType := ""
  LocalhostProfile : Option String := none
deriving DecidableEq, Repr

/-- Go `corev1.Capability`, a string type. -/
abbrev Capability := String

/-- Go `corev1.Capabilities` of the Kubernetes API library: two slices, a `nil`
slice is the empty list. -/
structure Capabilities where
  Add : List Capability := []
  Drop : List Capability := []
deriving DecidableEq, Repr

/-- Go `corev1.SecurityContext` of the Kubernetes API library (container level):
the fields the defaults set, and `ReadOnlyRootFilesystem`, which they leave out
on purpose.  A field that a composite literal does not name is `nil`. -/
structure SecurityContext where
  Capabilities : Option Capabilities := none
  Privileged : Option Bool := none
  RunAsUser : Option Int := none
  RunAsGroup : Option Int := none
  RunAsNonRoot : Option Bool := none
  ReadOnlyRootFilesystem : Option Bool := none
  AllowPrivilegeEscalation : Option Bool := none
  SeccompProfile : Option SeccompProfile := none
deriving DecidableEq, Repr

/-- Go `corev1.PodSecurityContext` of the Kubernetes API library (pod level):
its identity and seccomp fields. -/
structure PodSecurityContext where
  RunAsUser : Option Int := none
  RunAsGroup : Option Int := none
  RunAsNonRoot : Option Bool := none
  SeccompProfile : Option SeccompProfile := none
deriving DecidableEq, Repr

/-- Go `resource.Quantity` of the Kubernetes API library, kept as the text it was
parsed from. -/
structure Quantity where
  text : String
deriving DecidableEq, Repr

/-- Go `resource.MustParse` of the Kubernetes API library.  Its quantity grammar
is not modelled: the literal is kept as it is written. -/
def MustParse (str : String) : Quantity := ⟨str⟩

/-- Go `corev1.ResourceName`, a string type. -/
abbrev ResourceName := String

/-- Go constant `corev1.ResourceCPU`. -/
def ResourceCPU : ResourceName := "cpu"

/-- Go constant `corev1.ResourceMemory`. -/
def ResourceMemory : ResourceName := "memory"

/-- Go `corev1.ResourceList`, a `map[ResourceName]resource.Quantity`; the `nil`
map is the function that is `none` everywhere. -/
abbrev ResourceList := ResourceName → Option Quantity

/-- The Go map literal `corev1.ResourceList{k1: v1, k2: v2, ...}`. -/
def ResourceList.ofList (entries : List (ResourceName × Quantity)) : ResourceList :=
  fun k => entries.lookup k

/-- The `nil` resource list. -/
def ResourceList.empty : ResourceList := fun _ => none

/-- Go `corev1.ResourceRequirements`. -/
structure ResourceRequirements where
  Limits : ResourceList := ResourceList.empty
  Requests : ResourceList := ResourceList.empty

/-- Go `intstr.IntOrString`. -/
inductive IntOrString where
  | int (i : Int)
  | str (s : String)
deriving DecidableEq, Repr

/-- Go `appsv1.RollingUpdateDeployment`. -/
structure RollingUpdateDeployment where
  MaxUnavailable : Option IntOrString := none
  MaxSurge : Option IntOrString := none
deriving DecidableEq, Repr

/-- Go `appsv1.DeploymentStrategyType`, a string type. -/
abbrev DeploymentStrategyType := String

/-- Go constant `appsv1.RollingUpdateDeploymentStrategyType`. -/
def RollingUpdateDeploymentStrategyType : DeploymentStrategyType := "RollingUpdate"

/-- Go `appsv1.DeploymentStrategy` of the Kubernetes API library; `Type_` (Go
`Type`) is an `omitempty` string, the empty string is the unset state. -/
structure DeploymentStrategy where
  Type_ : DeploymentStrategyType := ""
  RollingUpdate : Option RollingUpdateDeployment := none
deriving DecidableEq, Repr

/-- Modelled from the spec: the type `KubernetesPodSpec` is declared elsewhere in
the repository.  Section 3, PodShape: "pod-level settings; minimally a
SecurityPosture"; the field is named as `defaultEnvoyPodSpec` names it. -/
structure KubernetesPodSpec where
  SecurityContext : Option PodSecurityContext := none
deriving DecidableEq, Repr

/-- Modelled from the spec: the type `KubernetesContainerSpec` is declared
elsewhere in the repository.  Section 3, ContainerShape: image reference,
resource requests and limits, security posture; the fields are named as
`defaultEnvoyContainerSpec` names them. -/
structure KubernetesContainerSpec where
  Image : Option String := none
  Resources : Option ResourceRequirements := none
  SecurityContext : Option SecurityContext := none

/-- Modelled from the spec: the type `KubernetesDeploymentSpec` is declared
elsewhere in the repository.  Section 3, DeploymentShape: optional replica
count, update strategy, pod shape, container shape; the fields are named as
`defaultEnvoyDeployment` names them.  `Replicas` is a Go `*int32`. -/
structure KubernetesDeploymentSpec where
  Replicas : Option Int := none
  Strategy : Option DeploymentStrategy := none
  Pod : Option KubernetesPodSpec := none
  Container : Option KubernetesContainerSpec := none

/-- Modelled from the spec: the type `KubernetesDaemonSetSpec` is declared
elsewhere in the repository.  Section 3, DaemonShape: the pod and container
shapes, no replica count; the fields are named as `defaultEnvoyDaemonSet`
names them. -/
structure KubernetesDaemonSetSpec where
  Pod : Option KubernetesPodSpec := none
  Container : Option KubernetesContainerSpec := none

/-- Modelled from the spec: the type `EnvoyProxyKubernetesProvider` is declared
elsewhere in the repository.  Section 3: under the provider, "two optional
workload shapes"; the fields are named as `DefaultEnvoyProxySpec` names them. -/
structure EnvoyProxyKubernetesProvider where
  EnvoyDeployment : Option KubernetesDeploymentSpec := none
  EnvoyDaemonSet : Option KubernetesDaemonSetSpec := none

/-- Modelled from the spec: the type `ProviderType` is declared elsewhere in the
repository.  Section 9 has it as a tag with one variant today; it is kept as a
string tag, so that a tag other than the known one can be written. -/
abbrev ProviderType := String

/-- Modelled from the spec: the type `EnvoyProxyProvider` is declared elsewhere in
the repository.  Section 3: "a `Provider` variant selecting the deployment
mechanism"; `Type_` (Go `Type`) is a required, non-pointer field, the fields are
named as `DefaultEnvoyProxySpec` names them. -/
structure EnvoyProxyProvider where
  Type_ : ProviderType := ""
  Kubernetes : Option EnvoyProxyKubernetesProvider := none

/-- Modelled from the spec: the type `EnvoyProxySpec` is declared elsewhere in
the repository.  Section 3, ProxyWorkloadSpec: the root document, holding the
provider; the field is named as `DefaultEnvoyProxySpec` names it. -/
structure EnvoyProxySpec where
  Provider : Option EnvoyProxyProvider := none

/-- Modelled from the spec: the type `EnvoyProxy` is declared elsewhere in the
repository.  Section 3, ResolvedProxyConfig: "wrapper holding a single
ProxyWorkloadSpec plus provenance-irrelevant identity metadata".  A composite
literal that names only `Spec` leaves the metadata at its zero value. -/
structure EnvoyProxy where
  ObjectMeta : ObjectMeta := {}
  Spec : EnvoyProxySpec := {}

/-- Modelled from the spec: the type `MergeType` is declared elsewhere in the
repository; the one merge kind `mergeEnvoyProxy` asks for, the structural merge
of section 4.1. -/
inductive MergeType where
  | StrategicMerge
deriving DecidableEq, Repr

/-! ## api/v1alpha1/envoyproxy_defaults.go -/

/-- Modelled from the spec: the constant `DefaultDeploymentReplicas` is declared
elsewhere in the repository; section 4.3 gives "a fixed positive default (e.g.,
2)". -/
def DefaultDeploymentReplicas : Int := 2

/-- Modelled from the spec: the constant `DefaultEnvoyProxyImage` is declared
elsewhere in the repository; section 4.3 gives "a fixed default image identifier
per role", the two roles using different defaults.  The identifier written here
stands for it. -/
def DefaultEnvoyProxyImage : String := "docker.io/envoyproxy/envoy:distroless-dev"

/-- Modelled from the spec: the constant `DefaultShutdownManagerImage` is
declared elsewhere in the repository; section 4.3 gives "a fixed default image
identifier per role", the two roles using different defaults.  The identifier
written here stands for it. -/
def DefaultShutdownManagerImage : String := "docker.io/envoyproxy/gateway-dev:latest"

/-- Modelled from the spec: the constant `DefaultDeploymentCPUResourceRequests`
is declared elsewhere in the repository; section 4.3 gives a "fixed conservative
CPU/memory baseline per role".  The quantity written here stands for it. -/
def DefaultDeploymentCPUResourceRequests : String := "100m"

/-- Modelled from the spec: the constant
`DefaultDeploymentMemoryResourceRequests` is declared elsewhere in the repository; section 4.3 gives a "fixed conservative CPU/memory baseline per role".
The quantity written here stands for it. -/
def DefaultDeploymentMemoryResourceRequests : String := "512Mi"

/-- Modelled from the spec: the constant
`DefaultShutdownManagerCPUResourceRequests` is declared elsewhere in the repository; section 4.3 gives a "fixed conservative CPU/memory baseline per role".
The quantity written here stands for it. -/
def DefaultShutdownManagerCPUResourceRequests : String := "10m"

/-- Modelled from the spec: the constant
`DefaultShutdownManagerMemoryResourceRequests` is declared elsewhere in the repository; section 4.3 gives a "fixed conservative CPU/memory baseline per role".
The quantity written here stands for it. -/
def DefaultShutdownManagerMemoryResourceRequests : String := "32Mi"

/-- Modelled from the spec: the constant `EnvoyProxyProviderTypeKubernetes` is
declared elsewhere in the repository; section 3 names one provider variant, the
orchestrated-cluster provider. -/
def EnvoyProxyProviderTypeKubernetes : ProviderType := "Kubernetes"

/-- Go `defaultEnvoyPodSpec`. -/
def defaultEnvoyPodSpec : Option KubernetesPodSpec :=
  some {
    SecurityContext := some {}
  }

/-- Go `defaultEnvoyContainerSecurityContext`. -/
def defaultEnvoyContainerSecurityContext : Option SecurityContext :=
  some {
    RunAsUser := some 65532
    RunAsGroup := some 65532
    Capabilities := some {
      Drop := ["ALL"]
    }
    AllowPrivilegeEscalation := some false
    Privileged := some false
    RunAsNonRoot := some true
    SeccompProfile := some {
      Type_ := SeccompProfileTypeRuntimeDefault
    }
  }

/-- Go `defaultEnvoyContainerSpec`. -/
def defaultEnvoyContainerSpec : Option KubernetesContainerSpec :=
  some {
    Image := some DefaultEnvoyProxyImage
    Resources := some {
      Requests := ResourceList.ofList [
        (ResourceCPU, MustParse DefaultDeploymentCPUResourceRequests),
        (ResourceMemory, MustParse DefaultDeploymentMemoryResourceRequests)]
    }
    SecurityContext := defaultEnvoyContainerSecurityContext
  }

/-- Go `defaultEnvoyDeployment`.  `int32(DefaultDeploymentReplicas)` converts a
constant, which Go only compiles when the value fits: no wrap-around. -/
def defaultEnvoyDeployment : Option KubernetesDeploymentSpec :=
  some {
    Replicas := some DefaultDeploymentReplicas
    Strategy := some {
      Type_ := RollingUpdateDeploymentStrategyType
    }
    Pod := defaultEnvoyPodSpec
    Container := defaultEnvoyContainerSpec
  }

/-- Go `defaultEnvoyDaemonSet`. -/
def defaultEnvoyDaemonSet : Option KubernetesDaemonSetSpec :=
  some {
    Pod := defaultEnvoyPodSpec
    Container := defaultEnvoyContainerSpec
  }

/-- Go `DefaultEnvoyProxySpec`. -/
def DefaultEnvoyProxySpec : Option EnvoyProxySpec :=
  some {
    Provider := some {
      Type_ := EnvoyProxyProviderTypeKubernetes
      Kubernetes := some {
        EnvoyDeployment := defaultEnvoyDeployment
        EnvoyDaemonSet := defaultEnvoyDaemonSet
      }
    }
  }

/-- Go `defaultShutdownManagerSecurityContext`. -/
def defaultShutdownManagerSecurityContext : Option SecurityContext :=
  some {
    RunAsUser := some 65532
    RunAsGroup := some 65532
    Capabilities := some {
      Drop := ["ALL"]
    }
    AllowPrivilegeEscalation := some false
    Privileged := some false
    RunAsNonRoot := some true
    SeccompProfile := some {
      Type_ := SeccompProfileTypeRuntimeDefault
    }
  }

/-- Go `DefaultShutdownManagerContainerSpec`. -/
def DefaultShutdownManagerContainerSpec : Option KubernetesContainerSpec :=
  some {
    Image := some DefaultShutdownManagerImage
    Resources := some {
      Requests := ResourceList.ofList [
        (ResourceCPU, MustParse DefaultShutdownManagerCPUResourceRequests),
        (ResourceMemory, MustParse DefaultShutdownManagerMemoryResourceRequests)]
    }
    SecurityContext := defaultShutdownManagerSecurityContext
  }

/-! ## Control flow of a Go call -/

/-- What a Go call does: it panics (a `nil` pointer is dereferenced) or it
returns a value. -/
inductive Outcome (α : Type) where
  | panic
  | returned (a : α)
deriving DecidableEq, Repr

/-- Sequencing of Go calls: a panic ends the caller too. -/
def Outcome.bind {α β : Type} (x : Outcome α) (f : α → Outcome β) : Outcome β :=
  match x with
  | .panic => .panic
  | .returned a => f a

instance : Monad Outcome where
  pure := Outcome.returned
  bind := Outcome.bind

/-- The type of `utils.Merge` at `EnvoyProxy`: `(merged, err)`. -/
abbrev MergeFn (E : Type) := EnvoyProxy → EnvoyProxy → MergeType → EnvoyProxy × Option E

/-- Go result pair `(*EnvoyProxy, error)` of `MergeEnvoyProxyConfigs`. -/
structure Resolved (E : Type) where
  doc : Option EnvoyProxy
  err : Option E

/-! ## internal/gatewayapi/envoyproxy_merge.go -/

/-- Go `mergeEnvoyProxy(base, overlay *EnvoyProxy)`: dereferences both pointers
and calls `utils.Merge(*base, *overlay, egv1a1.StrategicMerge)`. -/
def mergeEnvoyProxy {E : Type} (Merge : MergeFn E) (base overlay : Option EnvoyProxy) :
    Outcome (EnvoyProxy × Option E) :=
  match base, overlay with
  | some b, some o => .returned (Merge b o MergeType.StrategicMerge)
  | _, _ => .panic

/-- Go `MergeEnvoyProxyConfigs(template, gatewayClassProxy, gatewayProxy)`, with
`utils.Merge` as the parameter `Merge`. -/
def MergeEnvoyProxyConfigs {E : Type} (Merge : MergeFn E) (template : Option EnvoyProxySpec)
    (gatewayClassProxy gatewayProxy : Option EnvoyProxy) : Outcome (Resolved E) := do
  let mut result : Option EnvoyProxy := none
  if let some t := template then
    result := some { Spec := t }
  if gatewayClassProxy.isSome then
    if result.isSome then
      let (merged, err) ← mergeEnvoyProxy Merge result gatewayClassProxy
      if err.isSome then
        return ⟨none, err⟩
      result := some merged
    else
      result := gatewayClassProxy
  if gatewayProxy.isSome then
    if result.isSome then
      let (merged, err) ← mergeEnvoyProxy Merge result gatewayProxy
      if err.isSome then
        return ⟨none, err⟩
      result := some merged
    else
      result := gatewayProxy
  return ⟨result, none⟩

/-! ### The same code with its calls to `mergeEnvoyProxy` written down -/

/-- The arguments of one call `mergeEnvoyProxy(base, overlay)`. -/
abbrev Call := Option EnvoyProxy × Option EnvoyProxy

/-- A Go call together with the calls to `mergeEnvoyProxy` made while it ran, in
the order they were made. -/
structure Traced (α : Type) where
  calls : List Call
  out : Outcome α

/-- Sequencing of traced calls: the calls of the first part come first; after a
panic nothing more is called. -/
def Traced.bind {α β : Type} (x : Traced α) (f : α → Traced β) : Traced β :=
  match x.out with
  | .panic => ⟨x.calls, .panic⟩
  | .returned a => ⟨x.calls ++ (f a).calls, (f a).out⟩

instance : Monad Traced where
  pure := fun a => ⟨[], .returned a⟩
  bind := Traced.bind

/-- Go `mergeEnvoyProxy`, writing down the call. -/
def mergeEnvoyProxyTraced {E : Type} (Merge : MergeFn E) (base overlay : Option EnvoyProxy) :
    Traced (EnvoyProxy × Option E) :=
  ⟨[(base, overlay)], mergeEnvoyProxy Merge base overlay⟩

/-- Go `MergeEnvoyProxyConfigs`, statement for statement as above, with every
call to `mergeEnvoyProxy` written down. -/
def MergeEnvoyProxyConfigsTraced {E : Type} (Merge : MergeFn E) (template : Option EnvoyProxySpec)
    (gatewayClassProxy gatewayProxy : Option EnvoyProxy) : Traced (Resolved E) := do
  let mut result : Option EnvoyProxy := none
  if let some t := template then
    result := some { Spec := t }
  if gatewayClassProxy.isSome then
    if result.isSome then
      let (merged, err) ← mergeEnvoyProxyTraced Merge result gatewayClassProxy
      if err.isSome then
        return ⟨none, err⟩
      result := some merged
    else
      result := gatewayClassProxy
  if gatewayProxy.isSome then
    if result.isSome then
      let (merged, err) ← mergeEnvoyProxyTraced Merge result gatewayProxy
      if err.isSome then
        return ⟨none, err⟩
      result := some merged
    else
      result := gatewayProxy
  return ⟨result, none⟩

/-! ### The resolver as the specification words it -/

/-- The precedence resolver in the specification's words: start with
`result = nil`; for each input in priority order, skip it when absent, make it
the seed when `result` is `nil`, otherwise replace `result` by
`merge(result, input)`; a failing merge ends the fold with its error. -/
def resolveFold {E : Type} (merge : EnvoyProxy → EnvoyProxy → EnvoyProxy × Option E) :
    List (Option EnvoyProxy) → Option EnvoyProxy → Resolved E
  | [], result => ⟨result, none⟩
  | none :: rest, result => resolveFold merge rest result
  | some x :: rest, none => resolveFold merge rest (some x)
  | some x :: rest, some r =>
    match merge r x with
    | (_, some e) => ⟨none, some e⟩
    | (m, none) => resolveFold merge rest (some m)

/-- The template seeded as `EnvoyProxy{Spec: *template}`. -/
def seed (template : Option EnvoyProxySpec) : Option EnvoyProxy :=
  template.map fun t => { Spec := t }

/-! ## The structural merge engine (`utils.Merge`)

`utils.Merge` is declared elsewhere in the repository.  Its
strategic merge is modelled from section 4.1 of the specification, rule by
rule, over the document shape above. -/

/-- Modelled from the spec: the scalar rule of the merge engine (`utils.Merge`,
elsewhere in the repository).  "If overlay's field is explicitly set
(non-absent), result = overlay's value; else result = base's value." -/
def mergeScalar {α : Type} (base overlay : Option α) : Option α :=
  match overlay with
  | some v => some v
  | none => base

/-- Modelled from the spec: the scalar rule of the merge engine at an
`omitempty` string field, whose unset state is the empty string. -/
def mergeString (base overlay : String) : String :=
  if overlay = "" then base else overlay

/-- Modelled from the spec: the composite rule of the merge engine.  "If
overlay's field is absent, result = base's field unchanged; if overlay's field
is present and base's is absent, result = overlay's field unchanged; if both
present, recurse field-by-field." -/
def mergeComposite {α : Type} (recurse : α → α → α) (base overlay : Option α) : Option α :=
  match base, overlay with
  | b, none => b
  | none, some o => some o
  | some b, some o => some (recurse b o)

/-- Modelled from the spec: the mapping rule of the merge engine.  "Union of
keys; for keys present in both, apply scalar/composite rule to the value; keys
present only in overlay are added; keys present only in base are retained." -/
def mergeMapping {κ ν : Type} (rule : ν → ν → ν) (base overlay : κ → Option ν) : κ → Option ν :=
  fun k => mergeComposite rule (base k) (overlay k)

/-- Modelled from the spec: the unkeyed-list rule of the merge engine.
"Overlay fully replaces base when present (no item-level merge)"; the unset
state of a slice is the empty list. -/
def mergeList {α : Type} (base overlay : List α) : List α :=
  match overlay with
  | [] => base
  | _ :: _ => overlay

/-- Modelled from the spec: the merge engine at `metav1.ObjectMeta`. -/
def mergeObjectMeta (base overlay : ObjectMeta) : ObjectMeta :=
  { Name := mergeString base.Name overlay.Name
    Namespace := mergeString base.Namespace overlay.Namespace }

/-- Modelled from the spec: the merge engine at `corev1.SeccompProfile`; the
required `Type` of a present overlay is always set. -/
def mergeSeccompProfile (base overlay : SeccompProfile) : SeccompProfile :=
  { Type_ := overlay.Type_
    LocalhostProfile := mergeScalar base.LocalhostProfile overlay.LocalhostProfile }

/-- Modelled from the spec: the merge engine at `corev1.Capabilities`. -/
def mergeCapabilities (base overlay : Capabilities) : Capabilities :=
  { Add := mergeList base.Add overlay.Add
    Drop := mergeList base.Drop overlay.Drop }

/-- Modelled from the spec: the merge engine at `corev1.SecurityContext`. -/
def mergeSecurityContext (base overlay : SecurityContext) : SecurityContext :=
  { Capabilities := mergeComposite mergeCapabilities base.Capabilities overlay.Capabilities
    Privileged := mergeScalar base.Privileged overlay.Privileged
    RunAsUser := mergeScalar base.RunAsUser overlay.RunAsUser
    RunAsGroup := mergeScalar base.RunAsGroup overlay.RunAsGroup
    RunAsNonRoot := mergeScalar base.RunAsNonRoot overlay.RunAsNonRoot
    ReadOnlyRootFilesystem :=
      mergeScalar base.ReadOnlyRootFilesystem overlay.ReadOnlyRootFilesystem
    AllowPrivilegeEscalation :=
      mergeScalar base.AllowPrivilegeEscalation overlay.AllowPrivilegeEscalation
    SeccompProfile := mergeComposite mergeSeccompProfile base.SeccompProfile overlay.SeccompProfile }

/-- Modelled from the spec: the merge engine at `corev1.PodSecurityContext`. -/
def mergePodSecurityContext (base overlay : PodSecurityContext) : PodSecurityContext :=
  { RunAsUser := mergeScalar base.RunAsUser overlay.RunAsUser
    RunAsGroup := mergeScalar base.RunAsGroup overlay.RunAsGroup
    RunAsNonRoot := mergeScalar base.RunAsNonRoot overlay.RunAsNonRoot
    SeccompProfile := mergeComposite mergeSeccompProfile base.SeccompProfile overlay.SeccompProfile }

/-- Modelled from the spec: the merge engine at `corev1.ResourceRequirements`;
the value of a resource is a scalar, the overlay's value wins. -/
def mergeResourceRequirements (base overlay : ResourceRequirements) : ResourceRequirements :=
  { Limits := mergeMapping (fun _ o => o) base.Limits overlay.Limits
    Requests := mergeMapping (fun _ o => o) base.Requests overlay.Requests }

/-- Modelled from the spec: the merge engine at `appsv1.RollingUpdateDeployment`. -/
def mergeRollingUpdateDeployment (base overlay : RollingUpdateDeployment) :
    RollingUpdateDeployment :=
  { MaxUnavailable := mergeScalar base.MaxUnavailable overlay.MaxUnavailable
    MaxSurge := mergeScalar base.MaxSurge overlay.MaxSurge }

/-- Modelled from the spec: the merge engine at `appsv1.DeploymentStrategy`. -/
def mergeDeploymentStrategy (base overlay : DeploymentStrategy) : DeploymentStrategy :=
  { Type_ := mergeString base.Type_ overlay.Type_
    RollingUpdate :=
      mergeComposite mergeRollingUpdateDeployment base.RollingUpdate overlay.RollingUpdate }

/-- Modelled from the spec: the merge engine at `KubernetesPodSpec`. -/
def mergeKubernetesPodSpec (base overlay : KubernetesPodSpec) : KubernetesPodSpec :=
  { SecurityContext :=
      mergeComposite mergePodSecurityContext base.SecurityContext overlay.SecurityContext }

/-- Modelled from the spec: the merge engine at `KubernetesContainerSpec`. -/
def mergeKubernetesContainerSpec (base overlay : KubernetesContainerSpec) :
    KubernetesContainerSpec :=
  { Image := mergeScalar base.Image overlay.Image
    Resources := mergeComposite mergeResourceRequirements base.Resources overlay.Resources
    SecurityContext :=
      mergeComposite mergeSecurityContext base.SecurityContext overlay.SecurityContext }

/-- Modelled from the spec: the merge engine at `KubernetesDeploymentSpec`. -/
def mergeKubernetesDeploymentSpec (base overlay : KubernetesDeploymentSpec) :
    KubernetesDeploymentSpec :=
  { Replicas := mergeScalar base.Replicas overlay.Replicas
    Strategy := mergeComposite mergeDeploymentStrategy base.Strategy overlay.Strategy
    Pod := mergeComposite mergeKubernetesPodSpec base.Pod overlay.Pod
    Container := mergeComposite mergeKubernetesContainerSpec base.Container overlay.Container }

/-- Modelled from the spec: the merge engine at `KubernetesDaemonSetSpec`. -/
def mergeKubernetesDaemonSetSpec (base overlay : KubernetesDaemonSetSpec) :
    KubernetesDaemonSetSpec :=
  { Pod := mergeComposite mergeKubernetesPodSpec base.Pod overlay.Pod
    Container := mergeComposite mergeKubernetesContainerSpec base.Container overlay.Container }

/-- Modelled from the spec: the merge engine at `EnvoyProxyKubernetesProvider`. -/
def mergeEnvoyProxyKubernetesProvider (base overlay : EnvoyProxyKubernetesProvider) :
    EnvoyProxyKubernetesProvider :=
  { EnvoyDeployment :=
      mergeComposite mergeKubernetesDeploymentSpec base.EnvoyDeployment overlay.EnvoyDeployment
    EnvoyDaemonSet :=
      mergeComposite mergeKubernetesDaemonSetSpec base.EnvoyDaemonSet overlay.EnvoyDaemonSet }

/-- Modelled from the spec: the merge engine at `EnvoyProxyProvider`; the
required `Type` of a present overlay is always set. -/
def mergeEnvoyProxyProvider (base overlay : EnvoyProxyProvider) : EnvoyProxyProvider :=
  { Type_ := overlay.Type_
    Kubernetes :=
      mergeComposite mergeEnvoyProxyKubernetesProvider base.Kubernetes overlay.Kubernetes }

/-- Modelled from the spec: the merge engine at `EnvoyProxySpec`. -/
def mergeEnvoyProxySpec (base overlay : EnvoyProxySpec) : EnvoyProxySpec :=
  { Provider := mergeComposite mergeEnvoyProxyProvider base.Provider overlay.Provider }

/-- Modelled from the spec: the merge engine at `EnvoyProxy`, both composites
being present. -/
def structuralMerge (base overlay : EnvoyProxy) : EnvoyProxy :=
  { ObjectMeta := mergeObjectMeta base.ObjectMeta overlay.ObjectMeta
    Spec := mergeEnvoyProxySpec base.Spec overlay.Spec }

/-- The single error kind of the merge engine. -/
inductive SchemaMismatch where
  | schemaMismatch
deriving DecidableEq, Repr

/-- Modelled from the spec: what the merge engine knows of a document type, the
field-by-field structural merge of two documents of that type.  Section 9: the
merge is "a schema-driven traversal", "so the same engine serves every document
shape". -/
class DocumentShape (T : Type) where
  /-- The structural merge of a base and an overlay of this shape. -/
  structural : T → T → T

/-- The shape of `EnvoyProxy` documents. -/
instance instDocumentShapeEnvoyProxy : DocumentShape EnvoyProxy where
  structural := structuralMerge

/-- Modelled from the spec: `utils.Merge` (declared elsewhere in the repository),
generic in the document type as the Go function is.  Section 4.1:
`merge(base, overlay)` "fails with SchemaMismatch if base and overlay are not of
compatible shape".  Two documents of one type have the same shape, so their merge
returns the merged document and no error. -/
def utils.Merge {T : Type} [DocumentShape T] (original patch : T) (mergeType : MergeType) :
    T × Option SchemaMismatch :=
  match mergeType with
  | .StrategicMerge => (DocumentShape.structural original patch, none)

/-! ### Scalar fields of a document -/

/-- A scalar value: number, string, boolean, quantity or int-or-string. -/
inductive Scalar where
  | int (i : Int)
  | str (s : String)
  | bool (b : Bool)
  | quantity (q : Quantity)
  | intOrString (v : IntOrString)
deriving DecidableEq, Repr

/-- The scalar fields of a `corev1.SeccompProfile`. -/
inductive SeccompProfileField where
  | type
  | localhostProfile
deriving DecidableEq, Repr

/-- The scalar fields under a `corev1.SecurityContext`. -/
inductive SecurityContextField where
  | privileged
  | runAsUser
  | runAsGroup
  | runAsNonRoot
  | readOnlyRootFilesystem
  | allowPrivilegeEscalation
  | seccompProfile (f : SeccompProfileField)
deriving DecidableEq, Repr

/-- The scalar fields under a `corev1.PodSecurityContext`. -/
inductive PodSecurityContextField where
  | runAsUser
  | runAsGroup
  | runAsNonRoot
  | seccompProfile (f : SeccompProfileField)
deriving DecidableEq, Repr

/-- The scalar fields under a `KubernetesContainerSpec`; a resource request or
limit is one scalar per resource name. -/
inductive ContainerField where
  | image
  | request (k : ResourceName)
  | limit (k : ResourceName)
  | securityContext (f : SecurityContextField)
deriving DecidableEq, Repr

/-- The scalar fields under a `KubernetesDeploymentSpec`. -/
inductive DeploymentField where
  | replicas
  | strategyType
  | maxUnavailable
  | maxSurge
  | pod (f : PodSecurityContextField)
  | container (f : ContainerField)
deriving DecidableEq, Repr

/-- The scalar fields under a `KubernetesDaemonSetSpec`. -/
inductive DaemonSetField where
  | pod (f : PodSecurityContextField)
  | container (f : ContainerField)
deriving DecidableEq, Repr

/-- The scalar fields under an `EnvoyProxySpec`. -/
inductive ScalarField where
  | providerType
  | deployment (f : DeploymentField)
  | daemonSet (f : DaemonSetField)
deriving DecidableEq, Repr

/-- The value of a scalar field of a seccomp profile. -/
def SeccompProfile.scalar (x : SeccompProfile) : SeccompProfileField → Option Scalar
  | .type => some (.str x.Type_)
  | .localhostProfile => x.LocalhostProfile.map .str

/-- The value of a scalar field under a container security context, `none`
when it is not set. -/
def SecurityContext.scalar (x : SecurityContext) : SecurityContextField → Option Scalar
  | .privileged => x.Privileged.map .bool
  | .runAsUser => x.RunAsUser.map .int
  | .runAsGroup => x.RunAsGroup.map .int
  | .runAsNonRoot => x.RunAsNonRoot.map .bool
  | .readOnlyRootFilesystem => x.ReadOnlyRootFilesystem.map .bool
  | .allowPrivilegeEscalation => x.AllowPrivilegeEscalation.map .bool
  | .seccompProfile f => x.SeccompProfile.bind fun p => p.scalar f

/-- The value of a scalar field under a pod security context, `none` when it is
not set. -/
def PodSecurityContext.scalar (x : PodSecurityContext) : PodSecurityContextField → Option Scalar
  | .runAsUser => x.RunAsUser.map .int
  | .runAsGroup => x.RunAsGroup.map .int
  | .runAsNonRoot => x.RunAsNonRoot.map .bool
  | .seccompProfile f => x.SeccompProfile.bind fun p => p.scalar f

/-- The value of a scalar field under a container shape, `none` when it is not
set. -/
def KubernetesContainerSpec.scalar (x : KubernetesContainerSpec) : ContainerField → Option Scalar
  | .image => x.Image.map .str
  | .request k => x.Resources.bind fun r => (r.Requests k).map .quantity
  | .limit k => x.Resources.bind fun r => (r.Limits k).map .quantity
  | .securityContext f => x.SecurityContext.bind fun c => c.scalar f

/-- The value of a scalar field under a pod shape, `none` when it is not set. -/
def KubernetesPodSpec.scalar (x : KubernetesPodSpec) (f : PodSecurityContextField) :
    Option Scalar :=
  x.SecurityContext.bind fun c => c.scalar f

/-- The value of a scalar field under a deployment shape, `none` when it is not
set; the strategy type is unset when it is the empty string. -/
def KubernetesDeploymentSpec.scalar (x : KubernetesDeploymentSpec) :
    DeploymentField → Option Scalar
  | .replicas => x.Replicas.map .int
  | .strategyType => x.Strategy.bind fun s => if s.Type_ = "" then none else some (.str s.Type_)
  | .maxUnavailable =>
    x.Strategy.bind fun s => s.RollingUpdate.bind fun r => r.MaxUnavailable.map .intOrString
  | .maxSurge =>
    x.Strategy.bind fun s => s.RollingUpdate.bind fun r => r.MaxSurge.map .intOrString
  | .pod f => x.Pod.bind fun p => p.scalar f
  | .container f => x.Container.bind fun c => c.scalar f

/-- The value of a scalar field under a daemon-set shape, `none` when it is not
set. -/
def KubernetesDaemonSetSpec.scalar (x : KubernetesDaemonSetSpec) : DaemonSetField → Option Scalar
  | .pod f => x.Pod.bind fun p => p.scalar f
  | .container f => x.Container.bind fun c => c.scalar f

/-- The value of a scalar field of a spec, `none` when the field is not set. -/
def EnvoyProxySpec.scalar (x : EnvoyProxySpec) : ScalarField → Option Scalar
  | .providerType => x.Provider.map fun p => .str p.Type_
  | .deployment f =>
    x.Provider.bind fun p => p.Kubernetes.bind fun k => k.EnvoyDeployment.bind fun d => d.scalar f
  | .daemonSet f =>
    x.Provider.bind fun p => p.Kubernetes.bind fun k => k.EnvoyDaemonSet.bind fun d => d.scalar f

/-- A merge function follows the scalar rule at the field read by `get`: on
every base and overlay it succeeds, and the merged document has the overlay's
value when the overlay sets the field, the base's value otherwise. -/
def FollowsScalarRule {E V : Type} (Merge : MergeFn E) (get : EnvoyProxy → Option V) : Prop :=
  ∀ b o, ∃ m, Merge b o MergeType.StrategicMerge = (m, none)
    ∧ get m = mergeScalar (get b) (get o)

/-- A spec that sets only the deployment shape `d` of the Kubernetes provider. -/
def deploymentOnly (d : KubernetesDeploymentSpec) : EnvoyProxySpec :=
  { Provider := some
      { Type_ := EnvoyProxyProviderTypeKubernetes
        Kubernetes := some { EnvoyDeployment := some d } } }

/-- The number of inputs of `MergeEnvoyProxyConfigs` that are present. -/
def presentInputs (template : Option EnvoyProxySpec)
    (gatewayClassProxy gatewayProxy : Option EnvoyProxy) : Nat :=
  (if template.isSome then 1 else 0) + (if gatewayClassProxy.isSome then 1 else 0)
    + (if gatewayProxy.isSome then 1 else 0)

/-! ### The keyed-list rule -/

/-- Modelled from the spec: one overlay entry under the keyed-list rule of the
merge engine (`utils.Merge`, declared elsewhere in the repository).  An entry
whose key is already in the list merges into the entry with that key, which
keeps its position; an entry with a new key is appended at the end. -/
def upsertKeyed {α κ : Type} [DecidableEq κ] (key : α → κ) (recurse : α → α → α) :
    List α → α → List α
  | [], o => [o]
  | b :: rest, o =>
    if key b = key o then recurse b o :: rest else b :: upsertKeyed key recurse rest o

/-- Modelled from the spec: the keyed-list rule of the merge engine.  "Build the
union of keys in base-then-overlay order with overlay entries replacing/merging
matched base entries by key (recursively), and any overlay-only entries
appended at the end; base-only entries retain their original position."  The
overlay entries are taken in their order. -/
def mergeKeyedList {α κ : Type} [DecidableEq κ] (key : α → κ) (recurse : α → α → α)
    (base overlay : List α) : List α :=
  overlay.foldl (upsertKeyed key recurse) base

/-- Modelled from the spec: an item of a keyed container list, "a container list
keyed by container name" (section 3): a container shape under its name. -/
structure NamedContainer extends KubernetesContainerSpec where
  Name : String := ""

/-- Modelled from the spec: the merge engine at an item of a keyed container
list: the name is a scalar, the shape merges field by field. -/
def mergeNamedContainer (base overlay : NamedContainer) : NamedContainer :=
  { toKubernetesContainerSpec :=
      mergeKubernetesContainerSpec base.toKubernetesContainerSpec
        overlay.toKubernetesContainerSpec
    Name := mergeString base.Name overlay.Name }

/-- Modelled from the spec: a document shape with a keyed-list field, "a container
list keyed by container name" (section 3).  Neither the defaults nor the data
model of section 3 place such a list in `EnvoyProxy`, so it is a document shape
of its own. -/
structure KeyedContainers where
  Containers : List NamedContainer := []

/-- Modelled from the spec: the merge engine at a document with a keyed
container list: the keyed-list rule on the list, the container rule on its
items. -/
def mergeKeyedContainers (base overlay : KeyedContainers) : KeyedContainers :=
  { Containers :=
      mergeKeyedList NamedContainer.Name mergeNamedContainer base.Containers
        overlay.Containers }

/-- The shape of documents with a keyed container list. -/
instance instDocumentShapeKeyedContainers : DocumentShape KeyedContainers where
  structural := mergeKeyedContainers

/-- The empty overlay: the document that sets no field. -/
def emptyOverlay : EnvoyProxy := {}

/-- A document that sets only the replica count and the container image of the
deployment shape. -/
def replicasAndImage (n : Int) (image : String) : EnvoyProxy :=
  { Spec := deploymentOnly { Replicas := some n, Container := some { Image := some image } } }

/-! ### Every field of a document: scalars, unkeyed lists and composites -/

/-- The value of a field: a scalar, an unkeyed list, or a composite. -/
inductive Value where
  | scalar (s : Scalar)
  | list (l : List String)
  | seccompProfile (v : SeccompProfile)
  | capabilities (v : Capabilities)
  | securityContext (v : SecurityContext)
  | podSecurityContext (v : PodSecurityContext)
  | resources (v : ResourceRequirements)
  | rollingUpdate (v : RollingUpdateDeployment)
  | strategy (v : DeploymentStrategy)
  | pod (v : KubernetesPodSpec)
  | container (v : KubernetesContainerSpec)
  | deployment (v : KubernetesDeploymentSpec)
  | daemonSet (v : KubernetesDaemonSetSpec)
  | kubernetes (v : EnvoyProxyKubernetesProvider)
  | provider (v : EnvoyProxyProvider)

/-- The value of an unkeyed list field, `none` when the list is unset (empty). -/
def listValue (l : List String) : Option Value :=
  match l with
  | [] => none
  | _ :: _ => some (.list l)

/-- The list and composite fields under a `corev1.SecurityContext`. -/
inductive SecurityContextNode where
  | capabilities
  | capabilitiesAdd
  | capabilitiesDrop
  | seccompProfile
deriving DecidableEq, Repr

/-- The unkeyed lists among the fields under a security context. -/
def SecurityContextNode.isList : SecurityContextNode → Bool
  | .capabilitiesAdd => true
  | .capabilitiesDrop => true
  | _ => false

/-- The value of a list or composite field under a container security context,
`none` when it is not set. -/
def SecurityContext.node (x : SecurityContext) : SecurityContextNode → Option Value
  | .capabilities => x.Capabilities.map .capabilities
  | .capabilitiesAdd => x.Capabilities.bind fun c => listValue c.Add
  | .capabilitiesDrop => x.Capabilities.bind fun c => listValue c.Drop
  | .seccompProfile => x.SeccompProfile.map .seccompProfile

/-- The list and composite fields under a `KubernetesContainerSpec`. -/
inductive ContainerNode where
  | resources
  | securityContext
  | inSecurityContext (n : SecurityContextNode)
deriving DecidableEq, Repr

/-- The unkeyed lists among the fields under a container shape. -/
def ContainerNode.isList : ContainerNode → Bool
  | .inSecurityContext n => n.isList
  | _ => false

/-- The value of a list or composite field under a container shape, `none` when
it is not set. -/
def KubernetesContainerSpec.node (x : KubernetesContainerSpec) : ContainerNode → Option Value
  | .resources => x.Resources.map .resources
  | .securityContext => x.SecurityContext.map .securityContext
  | .inSecurityContext n => x.SecurityContext.bind fun c => c.node n

/-- The composite fields under a `KubernetesPodSpec`. -/
inductive PodNode where
  | securityContext
  | seccompProfile
deriving DecidableEq, Repr

/-- The value of a composite field under a pod shape, `none` when it is not
set. -/
def KubernetesPodSpec.node (x : KubernetesPodSpec) : PodNode → Option Value
  | .securityContext => x.SecurityContext.map .podSecurityContext
  | .seccompProfile =>
    x.SecurityContext.bind fun c => c.SeccompProfile.map .seccompProfile

/-- The list and composite fields under a `KubernetesDeploymentSpec`. -/
inductive DeploymentNode where
  | strategy
  | rollingUpdate
  | pod
  | container
  | inPod (n : PodNode)
  | inContainer (n : ContainerNode)
deriving DecidableEq, Repr

/-- The unkeyed lists among the fields under a deployment shape. -/
def DeploymentNode.isList : DeploymentNode → Bool
  | .inContainer n => n.isList
  | _ => false

/-- The value of a list or composite field under a deployment shape, `none` when
it is not set. -/
def KubernetesDeploymentSpec.node (x : KubernetesDeploymentSpec) :
    DeploymentNode → Option Value
  | .strategy => x.Strategy.map .strategy
  | .rollingUpdate => x.Strategy.bind fun s => s.RollingUpdate.map .rollingUpdate
  | .pod => x.Pod.map .pod
  | .container => x.Container.map .container
  | .inPod n => x.Pod.bind fun p => p.node n
  | .inContainer n => x.Container.bind fun c => c.node n

/-- The list and composite fields under a `KubernetesDaemonSetSpec`. -/
inductive DaemonSetNode where
  | pod
  | container
  | inPod (n : PodNode)
  | inContainer (n : ContainerNode)
deriving DecidableEq, Repr

/-- The unkeyed lists among the fields under a daemon-set shape. -/
def DaemonSetNode.isList : DaemonSetNode → Bool
  | .inContainer n => n.isList
  | _ => false

/-- The value of a list or composite field under a daemon-set shape, `none` when
it is not set. -/
def KubernetesDaemonSetSpec.node (x : KubernetesDaemonSetSpec) : DaemonSetNode → Option Value
  | .pod => x.Pod.map .pod
  | .container => x.Container.map .container
  | .inPod n => x.Pod.bind fun p => p.node n
  | .inContainer n => x.Container.bind fun c => c.node n

/-- The list and composite fields under an `EnvoyProxySpec`. -/
inductive SpecNode where
  | provider
  | kubernetes
  | deployment
  | daemonSet
  | inDeployment (n : DeploymentNode)
  | inDaemonSet (n : DaemonSetNode)
deriving DecidableEq, Repr

/-- The unkeyed lists among the fields under a spec. -/
def SpecNode.isList : SpecNode → Bool
  | .inDeployment n => n.isList
  | .inDaemonSet n => n.isList
  | _ => false

/-- The value of a list or composite field under a spec, `none` when it is not
set. -/
def EnvoyProxySpec.node (x : EnvoyProxySpec) : SpecNode → Option Value
  | .provider => x.Provider.map .provider
  | .kubernetes => x.Provider.bind fun p => p.Kubernetes.map .kubernetes
  | .deployment =>
    x.Provider.bind fun p => p.Kubernetes.bind fun k => k.EnvoyDeployment.map .deployment
  | .daemonSet =>
    x.Provider.bind fun p => p.Kubernetes.bind fun k => k.EnvoyDaemonSet.map .daemonSet
  | .inDeployment n =>
    x.Provider.bind fun p => p.Kubernetes.bind fun k => k.EnvoyDeployment.bind fun d => d.node n
  | .inDaemonSet n =>
    x.Provider.bind fun p => p.Kubernetes.bind fun k => k.EnvoyDaemonSet.bind fun d => d.node n

/-- A merge that always succeeds with the overlay. -/
def overlayWins : MergeFn String := fun _ o _ => (o, none)

/-- A merge that always fails. -/
def alwaysFails : MergeFn String := fun b _ _ => (b, some "SchemaMismatch")

/-- A document named `n` with an empty spec. -/
def named (n : String) : EnvoyProxy := { ObjectMeta := { Name := n } }

/-! ## Theorems: the precedence resolver -/

/-- The instrumented resolver returns what the resolver returns. -/
theorem traced_out {E : Type} (Merge : MergeFn E) (t : Option EnvoyProxySpec)
    (c i : Option EnvoyProxy) :
    (MergeEnvoyProxyConfigsTraced Merge t c i).out = MergeEnvoyProxyConfigs Merge t c i := by
  rcases t with _ | t <;> rcases c with _ | c <;> rcases i with _ | i <;>
    simp [MergeEnvoyProxyConfigsTraced, MergeEnvoyProxyConfigs, mergeEnvoyProxyTraced,
      mergeEnvoyProxy, bind, Traced.bind, Outcome.bind, pure] <;>
    repeat (split <;> simp)

/-- The resolver never panics and computes the fold of section 4.2. -/
theorem resolver_eq_fold {E : Type} (Merge : MergeFn E) (t : Option EnvoyProxySpec)
    (c i : Option EnvoyProxy) :
    MergeEnvoyProxyConfigs Merge t c i
      = .returned (resolveFold (fun b o => Merge b o MergeType.StrategicMerge) [seed t, c, i] none) := by
  rcases t with _ | t <;> rcases c with _ | c <;> rcases i with _ | i <;>
    simp [MergeEnvoyProxyConfigs, mergeEnvoyProxy, bind, Outcome.bind, pure, resolveFold, seed]
  all_goals (repeat' split) <;> simp_all

/-- The calls to `mergeEnvoyProxy` the resolver makes, case by case. -/
theorem traced_calls {E : Type} (Merge : MergeFn E) (t : Option EnvoyProxySpec)
    (c i : Option EnvoyProxy) :
    (MergeEnvoyProxyConfigsTraced Merge t c i).calls =
      match seed t, c, i with
      | some r, some x, some y =>
        if (Merge r x MergeType.StrategicMerge).2.isSome then [(some r, some x)]
        else [(some r, some x), (some (Merge r x MergeType.StrategicMerge).1, some y)]
      | some r, some x, none => [(some r, some x)]
      | some r, none, some y => [(some r, some y)]
      | none, some x, some y => [(some x, some y)]
      | _, _, _ => [] := by
  rcases t with _ | t <;> rcases c with _ | c <;> rcases i with _ | i <;>
    simp [MergeEnvoyProxyConfigsTraced, mergeEnvoyProxyTraced,
      mergeEnvoyProxy, bind, Traced.bind, Outcome.bind, pure, seed] <;>
    repeat (split <;> simp)

/-- C1: `MergeEnvoyProxyConfigs(t, c, i)` is the left-to-right fold of the present
inputs in the order template, class, instance: the first present input is the
seed (the template as `EnvoyProxy{Spec: t}`), every later present input `x`
replaces the running result `r` by `merge(r, x)`, base `r` and overlay `x`; when
all three are present and both merges succeed the result is
`merge(merge(EnvoyProxy{Spec: t}, c), i)`. -/
theorem C1_resolver_is_fold {E : Type} (Merge : MergeFn E) (t : Option EnvoyProxySpec)
    (c i : Option EnvoyProxy) :
    MergeEnvoyProxyConfigs Merge t c i
        = .returned (resolveFold (fun b o => Merge b o MergeType.StrategicMerge)
            [seed t, c, i] none)
    ∧ ∀ (T : EnvoyProxySpec) (C I : EnvoyProxy),
        (Merge { Spec := T } C MergeType.StrategicMerge).2 = none →
        (Merge (Merge { Spec := T } C MergeType.StrategicMerge).1 I MergeType.StrategicMerge).2
            = none →
        MergeEnvoyProxyConfigs Merge (some T) (some C) (some I)
          = .returned ⟨some (Merge (Merge { Spec := T } C MergeType.StrategicMerge).1 I
              MergeType.StrategicMerge).1, none⟩ := by
  refine ⟨resolver_eq_fold Merge t c i, ?_⟩
  intro T C I h1 h2
  simp [MergeEnvoyProxyConfigs, mergeEnvoyProxy, bind, Outcome.bind, pure, h1, h2]

/-- C1 at a concrete input: template, class document `class` and instance
document `gw` under the merge that returns its overlay. -/
theorem C1_resolver_is_fold_witness :
    (overlayWins { Spec := {} } (named "class") MergeType.StrategicMerge).2 = none
    ∧ (overlayWins (overlayWins { Spec := {} } (named "class") MergeType.StrategicMerge).1
        (named "gw") MergeType.StrategicMerge).2 = none
    ∧ MergeEnvoyProxyConfigs overlayWins (some {}) (some (named "class")) (some (named "gw"))
        = .returned ⟨some (named "gw"), none⟩ :=
  ⟨rfl, rfl,
    (C1_resolver_is_fold overlayWins (some {}) (some (named "class")) (some (named "gw"))).2
      {} (named "class") (named "gw") rfl rfl⟩

/-- C2: a single present input is returned verbatim and without error, whatever
the merge function does, and no merge is called: `(nil, X, nil)` and
`(nil, nil, X)` return `X` itself, `(X, nil, nil)` returns a document whose
`Spec` is `X`. -/
theorem C2_single_input_verbatim {E : Type} (Merge : MergeFn E) :
    (∀ X : EnvoyProxy,
      MergeEnvoyProxyConfigs Merge none (some X) none = .returned ⟨some X, none⟩
      ∧ MergeEnvoyProxyConfigs Merge none none (some X) = .returned ⟨some X, none⟩
      ∧ (MergeEnvoyProxyConfigsTraced Merge none (some X) none).calls = []
      ∧ (MergeEnvoyProxyConfigsTraced Merge none none (some X)).calls = [])
    ∧ ∀ X : EnvoyProxySpec,
      (∃ d : EnvoyProxy,
        MergeEnvoyProxyConfigs Merge (some X) none none = .returned ⟨some d, none⟩
        ∧ d.Spec = X)
      ∧ (MergeEnvoyProxyConfigsTraced Merge (some X) none none).calls = [] := by
  refine ⟨fun X => ⟨rfl, rfl, rfl, rfl⟩, fun X => ⟨⟨{ Spec := X }, rfl, rfl⟩, rfl⟩⟩

/-- C3: `MergeEnvoyProxyConfigs(nil, nil, nil)` returns the absent document and
no error; the call never panics; and it returns the absent document without an
error exactly when all three inputs are absent. -/
theorem C3_absent_iff_all_absent {E : Type} (Merge : MergeFn E) (t : Option EnvoyProxySpec)
    (c i : Option EnvoyProxy) :
    MergeEnvoyProxyConfigs Merge none none none = .returned ⟨none, none⟩
    ∧ (∃ r, MergeEnvoyProxyConfigs Merge t c i = .returned r)
    ∧ (MergeEnvoyProxyConfigs Merge t c i = .returned ⟨none, none⟩
        ↔ t = none ∧ c = none ∧ i = none) := by
  refine ⟨rfl, ⟨_, resolver_eq_fold Merge t c i⟩, ?_⟩
  rcases t with _ | t <;> rcases c with _ | c <;> rcases i with _ | i <;>
    simp [MergeEnvoyProxyConfigs, mergeEnvoyProxy, bind, Outcome.bind, pure] <;>
    split_ifs <;> simp_all [Option.isSome_iff_ne_none]

/-- C4: `MergeEnvoyProxyConfigs` fails exactly when one of the merge calls it
performs fails; a performed merge call that fails with `e` makes the result
exactly `(nil, e)`; and when the first merge (template with the class-level
overlay) fails, it is the only merge performed. -/
theorem C4_only_merge_errors {E : Type} (Merge : MergeFn E) (t : Option EnvoyProxySpec)
    (c i : Option EnvoyProxy) :
    ∃ r, MergeEnvoyProxyConfigs Merge t c i = .returned r
      ∧ (r.err.isSome ↔
          ∃ b o, (some b, some o) ∈ (MergeEnvoyProxyConfigsTraced Merge t c i).calls
            ∧ (Merge b o MergeType.StrategicMerge).2.isSome)
      ∧ (∀ b o e, (some b, some o) ∈ (MergeEnvoyProxyConfigsTraced Merge t c i).calls →
          (Merge b o MergeType.StrategicMerge).2 = some e → r = ⟨none, some e⟩)
      ∧ (∀ T C e, t = some T → c = some C →
          (Merge { Spec := T } C MergeType.StrategicMerge).2 = some e →
          (MergeEnvoyProxyConfigsTraced Merge t c i).calls = [(some { Spec := T }, some C)]
            ∧ r = ⟨none, some e⟩) := by
  rw [traced_calls]
  rcases t with _ | t <;> rcases c with _ | c <;> rcases i with _ | i <;>
    simp [MergeEnvoyProxyConfigs, mergeEnvoyProxy, bind, Outcome.bind, pure, seed] <;>
    split_ifs <;> simp_all [Option.isSome_iff_ne_none]
  · exact ⟨_, _, ⟨rfl, rfl⟩, ‹_›⟩
  · exact ⟨_, _, ⟨rfl, rfl⟩, ‹_›⟩
  · exact ⟨_, _, ⟨rfl, rfl⟩, ‹_›⟩
  · rintro T C e rfl rfl
    simp_all
  · exact ⟨_, _, ⟨rfl, rfl⟩, ‹_›⟩
  · refine ⟨⟨_, _, Or.inr ⟨rfl, rfl⟩, ‹_›⟩, ?_, ?_⟩
    · rintro b o e (⟨rfl, rfl⟩ | ⟨rfl, rfl⟩) hb
      · simp_all
      · exact hb
    · rintro T C e rfl rfl
      simp_all
  · refine ⟨?_, ?_, ?_⟩
    · rintro x y (⟨rfl, rfl⟩ | ⟨rfl, rfl⟩) <;> assumption
    · rintro b o e (⟨rfl, rfl⟩ | ⟨rfl, rfl⟩) <;> simp_all
    · rintro T C e rfl rfl
      simp_all

/-- C4 at a concrete input: all three inputs present under the merge that
always fails.  The first merge fails, it is the only call, and the result is its
error and no document. -/
theorem C4_only_merge_errors_witness :
    (alwaysFails { Spec := {} } (named "class") MergeType.StrategicMerge).2
        = some "SchemaMismatch"
    ∧ (MergeEnvoyProxyConfigsTraced alwaysFails (some {}) (some (named "class"))
        (some (named "gw"))).calls = [(some { Spec := {} }, some (named "class"))]
    ∧ MergeEnvoyProxyConfigs alwaysFails (some {}) (some (named "class")) (some (named "gw"))
        = .returned ⟨none, some "SchemaMismatch"⟩ := by
  obtain ⟨r, hr, _, _, h3⟩ :=
    C4_only_merge_errors alwaysFails (some {}) (some (named "class")) (some (named "gw"))
  obtain ⟨hc, rfl⟩ := h3 {} (named "class") "SchemaMismatch" rfl rfl rfl
  exact ⟨rfl, hc, hr⟩

/-! ## Theorems: the scalar rule through the merge engine -/

theorem mergeScalar_map {α β : Type} (f : α → β) (base overlay : Option α) :
    (mergeScalar base overlay).map f = mergeScalar (base.map f) (overlay.map f) := by
  cases overlay <;> rfl

/-- Reading a scalar below a composite field: the composite rule keeps the
scalar rule. -/
theorem bind_mergeComposite {α β : Type} (recurse : α → α → α) (get : α → Option β)
    (h : ∀ b o, get (recurse b o) = mergeScalar (get b) (get o)) (base overlay : Option α) :
    (mergeComposite recurse base overlay).bind get
      = mergeScalar (base.bind get) (overlay.bind get) := by
  rcases base with _ | b <;> rcases overlay with _ | o <;>
    simp only [mergeComposite, Option.bind, mergeScalar, h]
  all_goals (cases get o <;> rfl)

theorem scalar_mergeSeccompProfile (b o : SeccompProfile) (f : SeccompProfileField) :
    (mergeSeccompProfile b o).scalar f = mergeScalar (b.scalar f) (o.scalar f) := by
  cases f <;> simp [mergeSeccompProfile, SeccompProfile.scalar, mergeScalar_map]
  rfl

theorem scalar_mergeSecurityContext (b o : SecurityContext) (f : SecurityContextField) :
    (mergeSecurityContext b o).scalar f = mergeScalar (b.scalar f) (o.scalar f) := by
  cases f <;>
    simp [mergeSecurityContext, SecurityContext.scalar, mergeScalar_map, bind_mergeComposite,
      scalar_mergeSeccompProfile]

theorem scalar_mergePodSecurityContext (b o : PodSecurityContext)
    (f : PodSecurityContextField) :
    (mergePodSecurityContext b o).scalar f = mergeScalar (b.scalar f) (o.scalar f) := by
  cases f <;>
    simp [mergePodSecurityContext, PodSecurityContext.scalar, mergeScalar_map,
      bind_mergeComposite, scalar_mergeSeccompProfile]

theorem mergeMapping_scalar {κ ν : Type} (base overlay : κ → Option ν) (k : κ) :
    mergeMapping (fun _ o => o) base overlay k = mergeScalar (base k) (overlay k) := by
  unfold mergeMapping
  cases base k <;> cases overlay k <;> rfl

theorem scalar_mergeKubernetesContainerSpec (b o : KubernetesContainerSpec)
    (f : ContainerField) :
    (mergeKubernetesContainerSpec b o).scalar f = mergeScalar (b.scalar f) (o.scalar f) := by
  cases f <;>
    simp [mergeKubernetesContainerSpec, KubernetesContainerSpec.scalar, mergeScalar_map,
      bind_mergeComposite, scalar_mergeSecurityContext, mergeResourceRequirements,
      mergeMapping_scalar]

theorem scalar_mergeKubernetesPodSpec (b o : KubernetesPodSpec) (f : PodSecurityContextField) :
    (mergeKubernetesPodSpec b o).scalar f = mergeScalar (b.scalar f) (o.scalar f) := by
  simp [mergeKubernetesPodSpec, KubernetesPodSpec.scalar, bind_mergeComposite,
    scalar_mergePodSecurityContext]

theorem strategyType_mergeDeploymentStrategy (b o : DeploymentStrategy) :
    (if (mergeDeploymentStrategy b o).Type_ = "" then none
      else some (Scalar.str (mergeDeploymentStrategy b o).Type_))
      = mergeScalar (if b.Type_ = "" then none else some (Scalar.str b.Type_))
          (if o.Type_ = "" then none else some (Scalar.str o.Type_)) := by
  simp only [mergeDeploymentStrategy, mergeString]
  by_cases ho : o.Type_ = "" <;> simp [ho, mergeScalar]

theorem scalar_mergeKubernetesDeploymentSpec (b o : KubernetesDeploymentSpec)
    (f : DeploymentField) :
    (mergeKubernetesDeploymentSpec b o).scalar f = mergeScalar (b.scalar f) (o.scalar f) := by
  cases f
  case replicas =>
    simp [mergeKubernetesDeploymentSpec, KubernetesDeploymentSpec.scalar, mergeScalar_map]
  case strategyType =>
    simp only [mergeKubernetesDeploymentSpec, KubernetesDeploymentSpec.scalar]
    exact bind_mergeComposite _ _ strategyType_mergeDeploymentStrategy _ _
  case maxUnavailable =>
    simp only [mergeKubernetesDeploymentSpec, KubernetesDeploymentSpec.scalar]
    refine bind_mergeComposite _ _ (fun b o => ?_) _ _
    simp only [mergeDeploymentStrategy]
    refine bind_mergeComposite _ _ (fun b o => ?_) _ _
    simp [mergeRollingUpdateDeployment, mergeScalar_map]
  case maxSurge =>
    simp only [mergeKubernetesDeploymentSpec, KubernetesDeploymentSpec.scalar]
    refine bind_mergeComposite _ _ (fun b o => ?_) _ _
    simp only [mergeDeploymentStrategy]
    refine bind_mergeComposite _ _ (fun b o => ?_) _ _
    simp [mergeRollingUpdateDeployment, mergeScalar_map]
  case pod f =>
    simp only [mergeKubernetesDeploymentSpec, KubernetesDeploymentSpec.scalar]
    exact bind_mergeComposite _ _ (fun b o => scalar_mergeKubernetesPodSpec b o f) _ _
  case container f =>
    simp only [mergeKubernetesDeploymentSpec, KubernetesDeploymentSpec.scalar]
    exact bind_mergeComposite _ _ (fun b o => scalar_mergeKubernetesContainerSpec b o f) _ _

theorem scalar_mergeKubernetesDaemonSetSpec (b o : KubernetesDaemonSetSpec)
    (f : DaemonSetField) :
    (mergeKubernetesDaemonSetSpec b o).scalar f = mergeScalar (b.scalar f) (o.scalar f) := by
  cases f
  case pod f =>
    simp only [mergeKubernetesDaemonSetSpec, KubernetesDaemonSetSpec.scalar]
    exact bind_mergeComposite _ _ (fun b o => scalar_mergeKubernetesPodSpec b o f) _ _
  case container f =>
    simp only [mergeKubernetesDaemonSetSpec, KubernetesDaemonSetSpec.scalar]
    exact bind_mergeComposite _ _ (fun b o => scalar_mergeKubernetesContainerSpec b o f) _ _

/-- The scalar rule holds at every scalar field of a spec, however deep: the
merged value is the overlay's when the overlay sets the field, the base's
otherwise. -/
theorem scalar_mergeEnvoyProxySpec (b o : EnvoyProxySpec) (f : ScalarField) :
    (mergeEnvoyProxySpec b o).scalar f = mergeScalar (b.scalar f) (o.scalar f) := by
  cases f
  case providerType =>
    simp only [mergeEnvoyProxySpec, EnvoyProxySpec.scalar]
    rcases b.Provider with _ | p <;> rcases o.Provider with _ | q <;> rfl
  case deployment f =>
    simp only [mergeEnvoyProxySpec, EnvoyProxySpec.scalar]
    refine bind_mergeComposite _ _ (fun b o => ?_) _ _
    simp only [mergeEnvoyProxyProvider]
    refine bind_mergeComposite _ _ (fun b o => ?_) _ _
    simp only [mergeEnvoyProxyKubernetesProvider]
    exact bind_mergeComposite _ _ (fun b o => scalar_mergeKubernetesDeploymentSpec b o f) _ _
  case daemonSet f =>
    simp only [mergeEnvoyProxySpec, EnvoyProxySpec.scalar]
    refine bind_mergeComposite _ _ (fun b o => ?_) _ _
    simp only [mergeEnvoyProxyProvider]
    refine bind_mergeComposite _ _ (fun b o => ?_) _ _
    simp only [mergeEnvoyProxyKubernetesProvider]
    exact bind_mergeComposite _ _ (fun b o => scalar_mergeKubernetesDaemonSetSpec b o f) _ _

/-- The merge engine of section 4.1 follows the scalar rule at every scalar field
of the spec. -/
theorem utilsMerge_followsScalarRule (f : ScalarField) :
    FollowsScalarRule utils.Merge (fun d => d.Spec.scalar f) := by
  intro b o
  exact ⟨structuralMerge b o, rfl, scalar_mergeEnvoyProxySpec b.Spec o.Spec f⟩

/-! ## Theorems: precedence and field preservation -/

/-- C5: with a merge engine that follows the scalar rule at a field, and
documents `A` (template), `B` (class level), `C` (instance level) that each set
that field, `MergeEnvoyProxyConfigs(A, B, C)` has `C`'s value for the field,
`MergeEnvoyProxyConfigs(A, B, nil)` has `B`'s and
`MergeEnvoyProxyConfigs(A, nil, nil)` has `A`'s; all three calls succeed.  The
three values may be any, distinct or not. -/
theorem C5_precedence {E V : Type} (Merge : MergeFn E) (get : EnvoyProxy → Option V)
    (hrule : FollowsScalarRule Merge get)
    (A : EnvoyProxySpec) (B C : EnvoyProxy) (va vb vc : V)
    (hA : get { Spec := A } = some va) (hB : get B = some vb) (hC : get C = some vc) :
    (∃ r, MergeEnvoyProxyConfigs Merge (some A) (some B) (some C) = .returned ⟨some r, none⟩
        ∧ get r = some vc)
    ∧ (∃ r, MergeEnvoyProxyConfigs Merge (some A) (some B) none = .returned ⟨some r, none⟩
        ∧ get r = some vb)
    ∧ (∃ r, MergeEnvoyProxyConfigs Merge (some A) none none = .returned ⟨some r, none⟩
        ∧ get r = some va) := by
  obtain ⟨m1, h1, g1⟩ := hrule { Spec := A } B
  obtain ⟨m2, h2, g2⟩ := hrule m1 C
  refine ⟨⟨m2, ?_, ?_⟩, ⟨m1, ?_, ?_⟩, ⟨{ Spec := A }, rfl, hA⟩⟩
  · simp [MergeEnvoyProxyConfigs, mergeEnvoyProxy, bind, Outcome.bind, pure, h1, h2]
  · rw [g2, hC]; rfl
  · simp [MergeEnvoyProxyConfigs, mergeEnvoyProxy, bind, Outcome.bind, pure, h1]
  · rw [g1, hB]; rfl

/-- C5 at a concrete input: the replica count is 1 in the template, 2 in the
class-level document and 3 in the instance-level document, under the merge
engine of section 4.1. -/
theorem C5_precedence_witness :
    FollowsScalarRule utils.Merge (fun d => d.Spec.scalar (.deployment .replicas))
    ∧ (deploymentOnly { Replicas := some 1 }).scalar (.deployment .replicas) = some (.int 1)
    ∧ (∃ r, MergeEnvoyProxyConfigs utils.Merge (some (deploymentOnly { Replicas := some 1 }))
          (some { Spec := deploymentOnly { Replicas := some 2 } })
          (some { Spec := deploymentOnly { Replicas := some 3 } }) = .returned ⟨some r, none⟩
        ∧ r.Spec.scalar (.deployment .replicas) = some (.int 3))
    ∧ (∃ r, MergeEnvoyProxyConfigs utils.Merge (some (deploymentOnly { Replicas := some 1 }))
          (some { Spec := deploymentOnly { Replicas := some 2 } }) none
            = .returned ⟨some r, none⟩
        ∧ r.Spec.scalar (.deployment .replicas) = some (.int 2)) :=
  have h := C5_precedence utils.Merge (fun d => d.Spec.scalar (.deployment .replicas))
    (utilsMerge_followsScalarRule _) (deploymentOnly { Replicas := some 1 })
    { Spec := deploymentOnly { Replicas := some 2 } }
    { Spec := deploymentOnly { Replicas := some 3 } } (.int 1) (.int 2) (.int 3) rfl rfl rfl
  ⟨utilsMerge_followsScalarRule _, rfl, h.1, h.2.1⟩

/-! ## Theorems: the baseline defaults -/

/-- C7: for both container roles the default security context sets run-as-user
and run-as-group to 65532 (not 0), run-as-non-root to true, drops exactly
`["ALL"]` and adds no capability, sets allow-privilege-escalation and privileged
to false, sets the seccomp profile type to `RuntimeDefault`, and leaves
read-only-root-filesystem absent. -/
theorem C7_container_security_posture :
    (defaultEnvoyContainerSpec.bind fun c => c.SecurityContext)
        = some
          { RunAsUser := some 65532
            RunAsGroup := some 65532
            RunAsNonRoot := some true
            Capabilities := some { Add := [], Drop := ["ALL"] }
            AllowPrivilegeEscalation := some false
            Privileged := some false
            SeccompProfile :=
              some { Type_ := SeccompProfileTypeRuntimeDefault, LocalhostProfile := none }
            ReadOnlyRootFilesystem := none }
    ∧ (DefaultShutdownManagerContainerSpec.bind fun c => c.SecurityContext)
        = some
          { RunAsUser := some 65532
            RunAsGroup := some 65532
            RunAsNonRoot := some true
            Capabilities := some { Add := [], Drop := ["ALL"] }
            AllowPrivilegeEscalation := some false
            Privileged := some false
            SeccompProfile :=
              some { Type_ := SeccompProfileTypeRuntimeDefault, LocalhostProfile := none }
            ReadOnlyRootFilesystem := none }
    ∧ (65532 : Int) ≠ 0 := by
  refine ⟨rfl, rfl, by decide⟩

/-- C8 as stated fails: the pod-level security context of `defaultEnvoyPodSpec`
does not set run-as-non-root, a user or group identity, or a seccomp profile. -/
theorem C8_pod_posture_counterexample :
    ¬ ∃ sc, (defaultEnvoyPodSpec.bind fun p => p.SecurityContext) = some sc
      ∧ sc.RunAsNonRoot = some true
      ∧ (∃ uid, sc.RunAsUser = some uid ∧ uid ≠ 0)
      ∧ (∃ gid, sc.RunAsGroup = some gid ∧ gid ≠ 0)
      ∧ (sc.SeccompProfile.map fun p => p.Type_) = some SeccompProfileTypeRuntimeDefault := by
  rintro ⟨sc, hsc, hroot, -⟩
  have : sc = {} := by
    have h : some ({} : PodSecurityContext) = some sc := hsc
    exact (Option.some.inj h).symm
  subst this
  exact absurd hroot (by decide)

/-- C8, amended: the default pod shape has a present security context that sets
none of its fields: run-as-user, run-as-group, run-as-non-root and the seccomp
profile are all absent at pod level. -/
theorem C8_pod_security_context_empty :
    defaultEnvoyPodSpec
      = some
        { SecurityContext :=
            some
              { RunAsUser := none
                RunAsGroup := none
                RunAsNonRoot := none
                SeccompProfile := none } } := by
  rfl

/-- C9: the default deployment shape has a present replica count equal to
`DefaultDeploymentReplicas`, which is positive, an update strategy of type
`RollingUpdate` with no rolling-update parameters, and the pod and container
shapes of `defaultEnvoyPodSpec` and `defaultEnvoyContainerSpec`. -/
theorem C9_default_deployment :
    ∃ d, defaultEnvoyDeployment = some d
      ∧ d.Replicas = some DefaultDeploymentReplicas
      ∧ 0 < DefaultDeploymentReplicas
      ∧ d.Strategy = some { Type_ := RollingUpdateDeploymentStrategyType, RollingUpdate := none }
      ∧ d.Pod = defaultEnvoyPodSpec
      ∧ d.Container = defaultEnvoyContainerSpec := by
  exact ⟨_, rfl, rfl, by decide, rfl, rfl, rfl⟩

/-- The keys of a two-entry request map literal are `cpu` and `memory`. -/
theorem requests_keys (cpu memory : Quantity) (k : ResourceName) :
    (ResourceList.ofList [(ResourceCPU, cpu), (ResourceMemory, memory)] k).isSome
      ↔ k = ResourceCPU ∨ k = ResourceMemory := by
  unfold ResourceList.ofList
  by_cases h1 : k = ResourceCPU
  · simp [h1, List.lookup]
  · by_cases h2 : k = ResourceMemory
    · subst h2
      simp [List.lookup, ResourceCPU, ResourceMemory]
    · have e1 : (k == ResourceCPU) = false := by simpa using h1
      have e2 : (k == ResourceMemory) = false := by simpa using h2
      simp [List.lookup, h1, h2, e1, e2]

/-- C10: for each role the default container shape has a present image equal to
the role's default image constant, the two constants being different; its
resource requests have exactly the keys `cpu` and `memory`, with the role's
request constants as values; and it has no resource limits. -/
theorem C10_default_container_shapes :
    (∃ c r, defaultEnvoyContainerSpec = some c
      ∧ c.Image = some DefaultEnvoyProxyImage
      ∧ c.Resources = some r
      ∧ (∀ k, (r.Requests k).isSome ↔ k = ResourceCPU ∨ k = ResourceMemory)
      ∧ r.Requests ResourceCPU = some (MustParse DefaultDeploymentCPUResourceRequests)
      ∧ r.Requests ResourceMemory = some (MustParse DefaultDeploymentMemoryResourceRequests)
      ∧ ∀ k, r.Limits k = none)
    ∧ (∃ c r, DefaultShutdownManagerContainerSpec = some c
      ∧ c.Image = some DefaultShutdownManagerImage
      ∧ c.Resources = some r
      ∧ (∀ k, (r.Requests k).isSome ↔ k = ResourceCPU ∨ k = ResourceMemory)
      ∧ r.Requests ResourceCPU = some (MustParse DefaultShutdownManagerCPUResourceRequests)
      ∧ r.Requests ResourceMemory
          = some (MustParse DefaultShutdownManagerMemoryResourceRequests)
      ∧ ∀ k, r.Limits k = none)
    ∧ DefaultEnvoyProxyImage ≠ DefaultShutdownManagerImage := by
  refine ⟨⟨_, _, rfl, rfl, rfl, requests_keys _ _, ?_, ?_, fun _ => rfl⟩,
    ⟨_, _, rfl, rfl, rfl, requests_keys _ _, ?_, ?_, fun _ => rfl⟩, by decide⟩
  all_goals simp [ResourceList.ofList, List.lookup, ResourceCPU, ResourceMemory]

/-- C11: the default daemon shape has the same pod shape and the same container
shape as the default deployment shape, and it is made of these two alone: it
carries no replica count and no update strategy. -/
theorem C11_daemon_same_pod_and_container :
    ∃ ds dp, defaultEnvoyDaemonSet = some ds
      ∧ defaultEnvoyDeployment = some dp
      ∧ ds.Pod = dp.Pod
      ∧ ds.Container = dp.Container
      ∧ ds = { Pod := defaultEnvoyPodSpec, Container := defaultEnvoyContainerSpec }
      ∧ dp.Replicas.isSome = true
      ∧ dp.Strategy.isSome = true
      ∧ (∀ v, ds.scalar (.pod v) = dp.scalar (.pod v))
      ∧ (∀ v, ds.scalar (.container v) = dp.scalar (.container v)) := by
  exact ⟨_, _, rfl, rfl, rfl, rfl, rfl, rfl, rfl, fun _ => rfl, fun _ => rfl⟩

/-- C17: `DefaultEnvoyProxySpec` returns a spec whose provider is present with
type `EnvoyProxyProviderTypeKubernetes`, and whose Kubernetes provider has the
deployment shape and the daemon-set shape both present, equal to
`defaultEnvoyDeployment` and `defaultEnvoyDaemonSet`. -/
theorem C17_default_spec_has_both_shapes :
    ∃ s p k, DefaultEnvoyProxySpec = some s
      ∧ s.Provider = some p
      ∧ p.Type_ = EnvoyProxyProviderTypeKubernetes
      ∧ p.Kubernetes = some k
      ∧ k.EnvoyDeployment = defaultEnvoyDeployment
      ∧ k.EnvoyDaemonSet = defaultEnvoyDaemonSet
      ∧ k.EnvoyDeployment.isSome = true
      ∧ k.EnvoyDaemonSet.isSome = true := by
  exact ⟨_, _, _, rfl, rfl, rfl, rfl, rfl, rfl, rfl, rfl⟩

/-! ## Theorems: the calls of the resolver and its two-level factoring -/

/-- C15: every call `MergeEnvoyProxyConfigs` makes to `mergeEnvoyProxy` passes a
present base and a present overlay, no call dereferences `nil` and the resolver
never panics; and when no merge call fails, the number of merge calls is the
number of present inputs minus one (zero when at most one input is present). -/
theorem C15_calls_are_safe_and_counted {E : Type} (Merge : MergeFn E)
    (t : Option EnvoyProxySpec) (c i : Option EnvoyProxy) :
    (∀ call ∈ (MergeEnvoyProxyConfigsTraced Merge t c i).calls,
        (∃ b o, call = (some b, some o))
        ∧ mergeEnvoyProxy Merge call.1 call.2 ≠ .panic)
    ∧ (∃ r, MergeEnvoyProxyConfigs Merge t c i = .returned r)
    ∧ ((∀ b o, (some b, some o) ∈ (MergeEnvoyProxyConfigsTraced Merge t c i).calls →
          (Merge b o MergeType.StrategicMerge).2 = none) →
        (MergeEnvoyProxyConfigsTraced Merge t c i).calls.length = presentInputs t c i - 1) := by
  refine ⟨?_, ⟨_, resolver_eq_fold Merge t c i⟩, ?_⟩
  · rw [traced_calls]
    rcases t with _ | t <;> rcases c with _ | c <;> rcases i with _ | i <;>
      simp [seed, mergeEnvoyProxy]
    split_ifs <;> simp [mergeEnvoyProxy]
    rintro a b (⟨rfl, rfl⟩ | ⟨rfl, rfl⟩) <;> simp
  · rw [traced_calls]
    rcases t with _ | t <;> rcases c with _ | c <;> rcases i with _ | i <;>
      simp [seed, presentInputs]
    intro h
    have h1 := h { Spec := t } c (by split_ifs <;> simp)
    simp [h1]

/-- C15 at a concrete input: three present inputs under the merge that returns
its overlay make two merge calls. -/
theorem C15_calls_are_safe_and_counted_witness :
    (MergeEnvoyProxyConfigsTraced overlayWins (some {}) (some (named "class"))
        (some (named "gw"))).calls.length = 2 :=
  (C15_calls_are_safe_and_counted overlayWins (some {}) (some (named "class"))
    (some (named "gw"))).2.2 (fun _ _ _ => rfl)

/-- C16: three-level resolution factors through two-level resolution.  When
`MergeEnvoyProxyConfigs(A, B, nil)` succeeds with result `r` (possibly absent),
`MergeEnvoyProxyConfigs(A, B, C)` is `MergeEnvoyProxyConfigs(nil, r, C)`; when it
fails with error `e`, `MergeEnvoyProxyConfigs(A, B, C)` fails with `e` and no
document. -/
theorem C16_three_level_factors {E : Type} (Merge : MergeFn E) (A : Option EnvoyProxySpec)
    (B C : Option EnvoyProxy) :
    (∀ r, MergeEnvoyProxyConfigs Merge A B none = .returned ⟨r, none⟩ →
        MergeEnvoyProxyConfigs Merge A B C = MergeEnvoyProxyConfigs Merge none r C)
    ∧ (∀ d e, MergeEnvoyProxyConfigs Merge A B none = .returned ⟨d, some e⟩ →
        MergeEnvoyProxyConfigs Merge A B C = .returned ⟨none, some e⟩) := by
  rcases A with _ | A <;> rcases B with _ | B <;> rcases C with _ | C <;>
    simp [MergeEnvoyProxyConfigs, mergeEnvoyProxy, bind, Outcome.bind, pure]
  all_goals
    generalize Merge _ B MergeType.StrategicMerge = x
    rcases x with ⟨m, _ | e⟩ <;> simp

/-- C16 at concrete inputs: under the merge that returns its overlay the
two-level result is the class-level document, and the three-level result is the
resolution of that document with the instance-level one; under the merge that
always fails both levels fail with the same error. -/
theorem C16_three_level_factors_witness :
    MergeEnvoyProxyConfigs overlayWins (some {}) (some (named "class")) none
        = .returned ⟨some (named "class"), none⟩
    ∧ MergeEnvoyProxyConfigs overlayWins (some {}) (some (named "class")) (some (named "gw"))
        = MergeEnvoyProxyConfigs overlayWins none (some (named "class")) (some (named "gw"))
    ∧ MergeEnvoyProxyConfigs alwaysFails (some {}) (some (named "class")) none
        = .returned ⟨none, some "SchemaMismatch"⟩
    ∧ MergeEnvoyProxyConfigs alwaysFails (some {}) (some (named "class")) (some (named "gw"))
        = .returned ⟨none, some "SchemaMismatch"⟩ :=
  ⟨rfl,
    (C16_three_level_factors overlayWins (some {}) (some (named "class"))
      (some (named "gw"))).1 (some (named "class")) rfl,
    rfl,
    (C16_three_level_factors alwaysFails (some {}) (some (named "class"))
      (some (named "gw"))).2 none "SchemaMismatch" rfl⟩

/-! ## Theorems: the merge rules on an unset overlay and on a repeated overlay -/

theorem mergeScalar_none {α : Type} (b : Option α) : mergeScalar b none = b := rfl

theorem mergeScalar_self {α : Type} (a : Option α) : mergeScalar a a = a := by
  cases a <;> rfl

theorem mergeScalar_idem {α : Type} (a b : Option α) :
    mergeScalar (mergeScalar a b) b = mergeScalar a b := by
  cases b <;> rfl

theorem mergeString_empty (b : String) : mergeString b "" = b := by
  simp [mergeString]

theorem mergeString_self (a : String) : mergeString a a = a := by
  simp [mergeString]

theorem mergeString_idem (a b : String) :
    mergeString (mergeString a b) b = mergeString a b := by
  by_cases h : b = "" <;> simp [mergeString, h]

theorem mergeList_nil {α : Type} (b : List α) : mergeList b [] = b := rfl

theorem mergeList_self {α : Type} (a : List α) : mergeList a a = a := by
  cases a <;> rfl

theorem mergeList_idem {α : Type} (a b : List α) :
    mergeList (mergeList a b) b = mergeList a b := by
  cases b <;> rfl

theorem mergeComposite_none {α : Type} (r : α → α → α) (b : Option α) :
    mergeComposite r b none = b := by
  cases b <;> rfl

theorem mergeComposite_self {α : Type} (r : α → α → α) (hs : ∀ a, r a a = a) (a : Option α) :
    mergeComposite r a a = a := by
  cases a <;> simp [mergeComposite, hs]

theorem mergeComposite_idem {α : Type} (r : α → α → α) (hs : ∀ a, r a a = a)
    (hi : ∀ a b, r (r a b) b = r a b) (a b : Option α) :
    mergeComposite r (mergeComposite r a b) b = mergeComposite r a b := by
  rcases a with _ | a <;> rcases b with _ | b <;> simp [mergeComposite, hs, hi]

theorem mergeMapping_empty {κ ν : Type} (r : ν → ν → ν) (b : κ → Option ν) :
    mergeMapping r b (fun _ => none) = b := by
  funext k
  exact mergeComposite_none r (b k)

theorem mergeMapping_self {κ ν : Type} (r : ν → ν → ν) (hs : ∀ a, r a a = a)
    (a : κ → Option ν) : mergeMapping r a a = a := by
  funext k
  exact mergeComposite_self r hs (a k)

theorem mergeMapping_idem {κ ν : Type} (r : ν → ν → ν) (hs : ∀ a, r a a = a)
    (hi : ∀ a b, r (r a b) b = r a b) (a b : κ → Option ν) :
    mergeMapping r (mergeMapping r a b) b = mergeMapping r a b := by
  funext k
  exact mergeComposite_idem r hs hi (a k) (b k)

theorem mergeKeyedList_nil {α κ : Type} [DecidableEq κ] (key : α → κ) (r : α → α → α)
    (b : List α) : mergeKeyedList key r b [] = b := rfl

theorem mergeObjectMeta_self (a : ObjectMeta) : mergeObjectMeta a a = a := by
  cases a
  simp [mergeObjectMeta, mergeScalar_self, mergeString_self, mergeList_self, mergeComposite_self, mergeMapping_self]

theorem mergeObjectMeta_idem (a b : ObjectMeta) :
    mergeObjectMeta (mergeObjectMeta a b) b = mergeObjectMeta a b := by
  simp [mergeObjectMeta, mergeScalar_idem, mergeString_idem, mergeList_idem, mergeComposite_idem, mergeMapping_idem]

theorem mergeSeccompProfile_self (a : SeccompProfile) : mergeSeccompProfile a a = a := by
  cases a
  simp [mergeSeccompProfile, mergeScalar_self, mergeString_self, mergeList_self, mergeComposite_self, mergeMapping_self]

theorem mergeSeccompProfile_idem (a b : SeccompProfile) :
    mergeSeccompProfile (mergeSeccompProfile a b) b = mergeSeccompProfile a b := by
  simp [mergeSeccompProfile, mergeScalar_idem, mergeString_idem, mergeList_idem, mergeComposite_idem, mergeMapping_idem]

theorem mergeCapabilities_self (a : Capabilities) : mergeCapabilities a a = a := by
  cases a
  simp [mergeCapabilities, mergeScalar_self, mergeString_self, mergeList_self, mergeComposite_self, mergeMapping_self]

theorem mergeCapabilities_idem (a b : Capabilities) :
    mergeCapabilities (mergeCapabilities a b) b = mergeCapabilities a b := by
  simp [mergeCapabilities, mergeScalar_idem, mergeString_idem, mergeList_idem, mergeComposite_idem, mergeMapping_idem]

theorem mergeSecurityContext_self (a : SecurityContext) : mergeSecurityContext a a = a := by
  cases a
  simp [mergeSecurityContext, mergeScalar_self, mergeString_self, mergeList_self, mergeComposite_self, mergeMapping_self, mergeCapabilities_self, mergeSeccompProfile_self]

theorem mergeSecurityContext_idem (a b : SecurityContext) :
    mergeSecurityContext (mergeSecurityContext a b) b = mergeSecurityContext a b := by
  simp [mergeSecurityContext, mergeScalar_idem, mergeString_idem, mergeList_idem, mergeComposite_idem, mergeMapping_idem, mergeCapabilities_self, mergeSeccompProfile_self, mergeCapabilities_idem, mergeSeccompProfile_idem]

theorem mergePodSecurityContext_self (a : PodSecurityContext) : mergePodSecurityContext a a = a := by
  cases a
  simp [mergePodSecurityContext, mergeScalar_self, mergeString_self, mergeList_self, mergeComposite_self, mergeMapping_self, mergeSeccompProfile_self]

theorem mergePodSecurityContext_idem (a b : PodSecurityContext) :
    mergePodSecurityContext (mergePodSecurityContext a b) b = mergePodSecurityContext a b := by
  simp [mergePodSecurityContext, mergeScalar_idem, mergeString_idem, mergeList_idem, mergeComposite_idem, mergeMapping_idem, mergeSeccompProfile_self, mergeSeccompProfile_idem]

theorem mergeResourceRequirements_self (a : ResourceRequirements) : mergeResourceRequirements a a = a := by
  cases a
  simp [mergeResourceRequirements, mergeScalar_self, mergeString_self, mergeList_self, mergeComposite_self, mergeMapping_self]

theorem mergeResourceRequirements_idem (a b : ResourceRequirements) :
    mergeResourceRequirements (mergeResourceRequirements a b) b = mergeResourceRequirements a b := by
  simp [mergeResourceRequirements, mergeScalar_idem, mergeString_idem, mergeList_idem, mergeComposite_idem, mergeMapping_idem]

theorem mergeRollingUpdateDeployment_self (a : RollingUpdateDeployment) : mergeRollingUpdateDeployment a a = a := by
  cases a
  simp [mergeRollingUpdateDeployment, mergeScalar_self, mergeString_self, mergeList_self, mergeComposite_self, mergeMapping_self]

theorem mergeRollingUpdateDeployment_idem (a b : RollingUpdateDeployment) :
    mergeRollingUpdateDeployment (mergeRollingUpdateDeployment a b) b = mergeRollingUpdateDeployment a b := by
  simp [mergeRollingUpdateDeployment, mergeScalar_idem, mergeString_idem, mergeList_idem, mergeComposite_idem, mergeMapping_idem]

theorem mergeDeploymentStrategy_self (a : DeploymentStrategy) : mergeDeploymentStrategy a a = a := by
  cases a
  simp [mergeDeploymentStrategy, mergeScalar_self, mergeString_self, mergeList_self, mergeComposite_self, mergeMapping_self, mergeRollingUpdateDeployment_self]

theorem mergeDeploymentStrategy_idem (a b : DeploymentStrategy) :
    mergeDeploymentStrategy (mergeDeploymentStrategy a b) b = mergeDeploymentStrategy a b := by
  simp [mergeDeploymentStrategy, mergeScalar_idem, mergeString_idem, mergeList_idem, mergeComposite_idem, mergeMapping_idem, mergeRollingUpdateDeployment_self, mergeRollingUpdateDeployment_idem]

theorem mergeKubernetesPodSpec_self (a : KubernetesPodSpec) : mergeKubernetesPodSpec a a = a := by
  cases a
  simp [mergeKubernetesPodSpec, mergeScalar_self, mergeString_self, mergeList_self, mergeComposite_self, mergeMapping_self, mergePodSecurityContext_self]

theorem mergeKubernetesPodSpec_idem (a b : KubernetesPodSpec) :
    mergeKubernetesPodSpec (mergeKubernetesPodSpec a b) b = mergeKubernetesPodSpec a b := by
  simp [mergeKubernetesPodSpec, mergeScalar_idem, mergeString_idem, mergeList_idem, mergeComposite_idem, mergeMapping_idem, mergePodSecurityContext_self, mergePodSecurityContext_idem]

theorem mergeKubernetesContainerSpec_self (a : KubernetesContainerSpec) : mergeKubernetesContainerSpec a a = a := by
  cases a
  simp [mergeKubernetesContainerSpec, mergeScalar_self, mergeString_self, mergeList_self, mergeComposite_self, mergeMapping_self, mergeResourceRequirements_self, mergeSecurityContext_self]

theorem mergeKubernetesContainerSpec_idem (a b : KubernetesContainerSpec) :
    mergeKubernetesContainerSpec (mergeKubernetesContainerSpec a b) b = mergeKubernetesContainerSpec a b := by
  simp [mergeKubernetesContainerSpec, mergeScalar_idem, mergeString_idem, mergeList_idem, mergeComposite_idem, mergeMapping_idem, mergeResourceRequirements_self, mergeSecurityContext_self, mergeResourceRequirements_idem, mergeSecurityContext_idem]

theorem mergeKubernetesDeploymentSpec_self (a : KubernetesDeploymentSpec) : mergeKubernetesDeploymentSpec a a = a := by
  cases a
  simp [mergeKubernetesDeploymentSpec, mergeScalar_self, mergeString_self, mergeList_self, mergeComposite_self, mergeMapping_self, mergeDeploymentStrategy_self, mergeKubernetesPodSpec_self, mergeKubernetesContainerSpec_self]

theorem mergeKubernetesDeploymentSpec_idem (a b : KubernetesDeploymentSpec) :
    mergeKubernetesDeploymentSpec (mergeKubernetesDeploymentSpec a b) b = mergeKubernetesDeploymentSpec a b := by
  simp [mergeKubernetesDeploymentSpec, mergeScalar_idem, mergeString_idem, mergeList_idem, mergeComposite_idem, mergeMapping_idem, mergeDeploymentStrategy_self, mergeKubernetesPodSpec_self, mergeKubernetesContainerSpec_self, mergeDeploymentStrategy_idem, mergeKubernetesPodSpec_idem, mergeKubernetesContainerSpec_idem]

theorem mergeKubernetesDaemonSetSpec_self (a : KubernetesDaemonSetSpec) : mergeKubernetesDaemonSetSpec a a = a := by
  cases a
  simp [mergeKubernetesDaemonSetSpec, mergeScalar_self, mergeString_self, mergeList_self, mergeComposite_self, mergeMapping_self, mergeKubernetesPodSpec_self, mergeKubernetesContainerSpec_self]

theorem mergeKubernetesDaemonSetSpec_idem (a b : KubernetesDaemonSetSpec) :
    mergeKubernetesDaemonSetSpec (mergeKubernetesDaemonSetSpec a b) b = mergeKubernetesDaemonSetSpec a b := by
  simp [mergeKubernetesDaemonSetSpec, mergeScalar_idem, mergeString_idem, mergeList_idem, mergeComposite_idem, mergeMapping_idem, mergeKubernetesPodSpec_self, mergeKubernetesContainerSpec_self, mergeKubernetesPodSpec_idem, mergeKubernetesContainerSpec_idem]

theorem mergeEnvoyProxyKubernetesProvider_self (a : EnvoyProxyKubernetesProvider) : mergeEnvoyProxyKubernetesProvider a a = a := by
  cases a
  simp [mergeEnvoyProxyKubernetesProvider, mergeScalar_self, mergeString_self, mergeList_self, mergeComposite_self, mergeMapping_self, mergeKubernetesDeploymentSpec_self, mergeKubernetesDaemonSetSpec_self]

theorem mergeEnvoyProxyKubernetesProvider_idem (a b : EnvoyProxyKubernetesProvider) :
    mergeEnvoyProxyKubernetesProvider (mergeEnvoyProxyKubernetesProvider a b) b = mergeEnvoyProxyKubernetesProvider a b := by
  simp [mergeEnvoyProxyKubernetesProvider, mergeScalar_idem, mergeString_idem, mergeList_idem, mergeComposite_idem, mergeMapping_idem, mergeKubernetesDeploymentSpec_self, mergeKubernetesDaemonSetSpec_self, mergeKubernetesDeploymentSpec_idem, mergeKubernetesDaemonSetSpec_idem]

theorem mergeEnvoyProxyProvider_self (a : EnvoyProxyProvider) : mergeEnvoyProxyProvider a a = a := by
  cases a
  simp [mergeEnvoyProxyProvider, mergeScalar_self, mergeString_self, mergeList_self, mergeComposite_self, mergeMapping_self, mergeEnvoyProxyKubernetesProvider_self]

theorem mergeEnvoyProxyProvider_idem (a b : EnvoyProxyProvider) :
    mergeEnvoyProxyProvider (mergeEnvoyProxyProvider a b) b = mergeEnvoyProxyProvider a b := by
  simp [mergeEnvoyProxyProvider, mergeScalar_idem, mergeString_idem, mergeList_idem, mergeComposite_idem, mergeMapping_idem, mergeEnvoyProxyKubernetesProvider_self, mergeEnvoyProxyKubernetesProvider_idem]

theorem mergeEnvoyProxySpec_self (a : EnvoyProxySpec) : mergeEnvoyProxySpec a a = a := by
  cases a
  simp [mergeEnvoyProxySpec, mergeScalar_self, mergeString_self, mergeList_self, mergeComposite_self, mergeMapping_self, mergeEnvoyProxyProvider_self]

theorem mergeEnvoyProxySpec_idem (a b : EnvoyProxySpec) :
    mergeEnvoyProxySpec (mergeEnvoyProxySpec a b) b = mergeEnvoyProxySpec a b := by
  simp [mergeEnvoyProxySpec, mergeScalar_idem, mergeString_idem, mergeList_idem, mergeComposite_idem, mergeMapping_idem, mergeEnvoyProxyProvider_self, mergeEnvoyProxyProvider_idem]

/-- Merging a document with itself gives the document. -/
theorem structuralMerge_self (a : EnvoyProxy) : structuralMerge a a = a := by
  cases a
  simp [structuralMerge, mergeObjectMeta_self, mergeEnvoyProxySpec_self]

/-- Merging the same overlay a second time changes nothing. -/
theorem structuralMerge_idem (a b : EnvoyProxy) :
    structuralMerge (structuralMerge a b) b = structuralMerge a b := by
  simp [structuralMerge, mergeObjectMeta_idem, mergeEnvoyProxySpec_idem]

/-- Merging the empty overlay gives the base. -/
theorem structuralMerge_emptyOverlay (a : EnvoyProxy) : structuralMerge a emptyOverlay = a := by
  rcases a with ⟨⟨n, ns⟩, ⟨p⟩⟩
  simp [structuralMerge, emptyOverlay, mergeObjectMeta, mergeEnvoyProxySpec, mergeString_empty,
    mergeComposite_none]

/-! ## Theorems: the keyed-list rule -/

theorem upsertKeyed_twice {α κ : Type} [DecidableEq κ] (key : α → κ) (r : α → α → α)
    (hk : ∀ a b, key a = key b → key (r a b) = key a) (hs : ∀ a, r a a = a)
    (hi : ∀ a b, r (r a b) b = r a b) (l : List α) (o : α) :
    upsertKeyed key r (upsertKeyed key r l o) o = upsertKeyed key r l o := by
  induction l with
  | nil => simp [upsertKeyed, hs]
  | cons b rest ih =>
    by_cases h : key b = key o
    · simp [upsertKeyed, h, hk b o h, hi]
    · simp [upsertKeyed, h, ih]

theorem upsertKeyed_other {α κ : Type} [DecidableEq κ] (key : α → κ) (r : α → α → α)
    (hk : ∀ a b, key a = key b → key (r a b) = key a) (l : List α) (o p : α)
    (hne : key p ≠ key o) (hl : upsertKeyed key r l o = l) :
    upsertKeyed key r (upsertKeyed key r l p) o = upsertKeyed key r l p := by
  induction l with
  | nil => simp [upsertKeyed] at hl
  | cons b rest ih =>
    by_cases hbo : key b = key o
    · have hbp : key b ≠ key p := fun h => hne (h.symm.trans hbo)
      simp only [upsertKeyed, hbo, if_true] at hl
      have hb : r b o = b := (List.cons.inj hl).1
      have hop : ¬ key o = key p := fun h => hne h.symm
      simp [upsertKeyed, hbo, hop, hb]
    · simp only [upsertKeyed, hbo, if_false] at hl
      have hrest : upsertKeyed key r rest o = rest := (List.cons.inj hl).2
      by_cases hbp : key b = key p
      · have hko : key (r b p) ≠ key o := by rw [hk b p hbp]; exact hbo
        simp [upsertKeyed, hbp, hko, hrest]
      · simp [upsertKeyed, hbp, hbo, ih hrest]

theorem foldl_upsertKeyed_other {α κ : Type} [DecidableEq κ] (key : α → κ) (r : α → α → α)
    (hk : ∀ a b, key a = key b → key (r a b) = key a) (o : α) (ps : List α)
    (hne : ∀ p ∈ ps, key p ≠ key o) (l : List α) (hl : upsertKeyed key r l o = l) :
    upsertKeyed key r (ps.foldl (upsertKeyed key r) l) o = ps.foldl (upsertKeyed key r) l := by
  induction ps generalizing l with
  | nil => exact hl
  | cons p rest ih =>
    simp only [List.foldl_cons]
    exact ih (fun q hq => hne q (List.mem_cons_of_mem _ hq)) _
      (upsertKeyed_other key r hk l o p (hne p (List.mem_cons_self _ _)) hl)

theorem foldl_upsertKeyed_absorbed {α κ : Type} [DecidableEq κ] (key : α → κ) (r : α → α → α)
    (os : List α) (l : List α) (h : ∀ o ∈ os, upsertKeyed key r l o = l) :
    os.foldl (upsertKeyed key r) l = l := by
  induction os with
  | nil => rfl
  | cons o rest ih =>
    simp only [List.foldl_cons, h o (List.mem_cons_self _ _)]
    exact ih (fun q hq => h q (List.mem_cons_of_mem _ hq))

/-- The keyed-list rule applied a second time with the same overlay changes
nothing, when the overlay's keys are distinct and the item merge keeps the key,
is the identity on equal items and is itself unchanged by a repeated overlay. -/
theorem mergeKeyedList_idem {α κ : Type} [DecidableEq κ] (key : α → κ) (r : α → α → α)
    (hk : ∀ a b, key a = key b → key (r a b) = key a) (hs : ∀ a, r a a = a)
    (hi : ∀ a b, r (r a b) b = r a b) (base overlay : List α)
    (hnd : (overlay.map key).Nodup) :
    mergeKeyedList key r (mergeKeyedList key r base overlay) overlay
      = mergeKeyedList key r base overlay := by
  unfold mergeKeyedList
  apply foldl_upsertKeyed_absorbed
  induction overlay generalizing base with
  | nil => intro o ho; cases ho
  | cons p rest ih =>
    have hnd2 : key p ∉ rest.map key ∧ (rest.map key).Nodup := by
      simpa [List.nodup_cons] using hnd
    intro o ho
    simp only [List.foldl_cons]
    rcases List.mem_cons.mp ho with rfl | ho
    · refine foldl_upsertKeyed_other key r hk o rest (fun q hq hqo => hnd2.1 ?_) _
        (upsertKeyed_twice key r hk hs hi base o)
      rw [← hqo]
      exact List.mem_map_of_mem key hq
    · exact ih _ hnd2.2 o ho

theorem mergeNamedContainer_self (a : NamedContainer) : mergeNamedContainer a a = a := by
  rcases a with ⟨c, n⟩
  simp [mergeNamedContainer, mergeKubernetesContainerSpec_self, mergeString_self]

theorem mergeNamedContainer_idem (a b : NamedContainer) :
    mergeNamedContainer (mergeNamedContainer a b) b = mergeNamedContainer a b := by
  simp [mergeNamedContainer, mergeKubernetesContainerSpec_idem, mergeString_idem]

/-- The keyed-list rule at container lists: with distinct overlay names, a
repeated overlay changes nothing. -/
theorem mergeKeyedList_namedContainer_idem (base overlay : List NamedContainer)
    (hnd : (overlay.map NamedContainer.Name).Nodup) :
    mergeKeyedList NamedContainer.Name mergeNamedContainer
        (mergeKeyedList NamedContainer.Name mergeNamedContainer base overlay) overlay
      = mergeKeyedList NamedContainer.Name mergeNamedContainer base overlay := by
  refine mergeKeyedList_idem _ _ (fun a b h => ?_) mergeNamedContainer_self
    mergeNamedContainer_idem base overlay hnd
  simp [mergeNamedContainer, h, mergeString_self]

/-- C13: merging a document `X` with the empty overlay through `mergeEnvoyProxy`
succeeds and returns `X`; the empty overlay is the document that sets no field:
no name, no namespace, no provider, no scalar field of the spec. -/
theorem C13_empty_overlay_identity (X : EnvoyProxy) :
    mergeEnvoyProxy utils.Merge (some X) (some emptyOverlay) = .returned (X, none)
    ∧ emptyOverlay.ObjectMeta.Name = ""
    ∧ emptyOverlay.ObjectMeta.Namespace = ""
    ∧ emptyOverlay.Spec.Provider = none
    ∧ ∀ f, emptyOverlay.Spec.scalar f = none := by
  refine ⟨?_, rfl, rfl, rfl, fun f => by cases f <;> rfl⟩
  show Outcome.returned (structuralMerge X emptyOverlay, none) = _
  rw [structuralMerge_emptyOverlay]

/-- C14: `mergeEnvoyProxy(A, B)` succeeds, and merging the overlay `B` a second
time into its result changes nothing. -/
theorem C14_repeated_overlay (A B : EnvoyProxy) :
    (∃ m, mergeEnvoyProxy utils.Merge (some A) (some B) = .returned (m, none))
    ∧ ∀ m, mergeEnvoyProxy utils.Merge (some A) (some B) = .returned (m, none) →
        mergeEnvoyProxy utils.Merge (some m) (some B) = .returned (m, none) := by
  refine ⟨⟨structuralMerge A B, rfl⟩, ?_⟩
  intro m hm
  have h : Outcome.returned (structuralMerge A B, (none : Option SchemaMismatch))
      = .returned (m, none) := hm
  have hm2 : structuralMerge A B = m := by
    injection h with h
    exact congrArg Prod.fst h
  subst hm2
  show Outcome.returned (structuralMerge (structuralMerge A B) B, none) = _
  rw [structuralMerge_idem]

/-- C14 at a concrete input: the template with one replica, overlaid twice with
a document that sets three replicas and an image. -/
theorem C14_repeated_overlay_witness :
    mergeEnvoyProxy utils.Merge (some { Spec := deploymentOnly { Replicas := some 1 } })
        (some (replicasAndImage 3 "envoy:v1"))
      = .returned (replicasAndImage 3 "envoy:v1", none)
    ∧ mergeEnvoyProxy utils.Merge (some (replicasAndImage 3 "envoy:v1"))
        (some (replicasAndImage 3 "envoy:v1"))
      = .returned (replicasAndImage 3 "envoy:v1", none) :=
  have h : mergeEnvoyProxy utils.Merge (some { Spec := deploymentOnly { Replicas := some 1 } })
        (some (replicasAndImage 3 "envoy:v1"))
      = .returned (replicasAndImage 3 "envoy:v1", none) := by
    simp [mergeEnvoyProxy, utils.Merge, DocumentShape.structural, structuralMerge,
      mergeObjectMeta, mergeString,
      mergeEnvoyProxySpec, mergeComposite, deploymentOnly, mergeEnvoyProxyProvider,
      mergeEnvoyProxyKubernetesProvider, mergeKubernetesDeploymentSpec, mergeScalar,
      EnvoyProxyProviderTypeKubernetes, replicasAndImage]
  ⟨h, (C14_repeated_overlay _ _).2 _ h⟩

/-! ## Theorems: every field through the merge engine -/

end Gateway
